import Mathlib

/-! ESP32 smart light, WS2812 variant (`smartlightws2812.c`).

A shallow embedding of the shared device state, the LED output path, the
HSV to RGB conversion, the `/control` and `/status` handlers, the sensor
monitor loop and the light effect loop, followed by the properties proved
about them.

Conventions of the embedding:

* a `uint8_t`, `uint16_t` or `bool` object is a `Nat` or `Bool`; every store
  into a `uint8_t` that the C code performs on an `int` expression is the
  explicit reduction `to_uint8`;
* expressions that C evaluates in `int` (after the integer promotions) are
  evaluated in `Int`;
* the three tasks are interleaved at the granularity of one handler call or
  one loop iteration.
-/

namespace WS2812

/-! ## Constants and machine integers -/

/-- Number of pixels of the strip: `#define LED_STRIP_LENGTH 5`. -/
def LED_STRIP_LENGTH : Nat := 5

/-- Dark threshold of the arbiter: `#define LIGHT_THRESHOLD 3000`. -/
def LIGHT_THRESHOLD : Int := 3000

/-- Enumerators of `light_effect_t`, with their C values. -/
def EFFECT_NONE : Nat := 0

/-- Second enumerator of `light_effect_t`. -/
def EFFECT_FADE : Nat := 1

/-- Third enumerator of `light_effect_t`. -/
def EFFECT_BREATH : Nat := 2

/-- Fourth enumerator of `light_effect_t`. -/
def EFFECT_RAINBOW : Nat := 3

/-- Fifth enumerator of `light_effect_t`. -/
def EFFECT_RAINBOW_CYCLE : Nat := 4

/-- Conversion of an `int` value to `uint8_t`: reduction modulo 256. -/
def to_uint8 (x : Int) : Nat := (x % 256).toNat

/-- Conversion of an `int` value to `light_effect_t`.  The enumeration has no
negative enumerator, so the ESP-IDF toolchain (GCC) gives it the underlying
type `unsigned int`: the conversion is the reduction modulo 2^32. -/
def to_effect (x : Int) : Nat := (x % 4294967296).toNat

/-! ## HSV to RGB -/

/-- Right-hand side of `uint8_t region = h / 43;`. -/
def hsv_region (h : Nat) : Int := (h : Int) / 43

/-- Right-hand side of `uint8_t remainder = (h - (region * 43)) * 6;`. -/
def hsv_remainder (h region : Nat) : Int := ((h : Int) - ((region : Int) * 43)) * 6

/-- Right-hand side of `uint8_t p = (v * (255 - s)) >> 8;`. -/
def hsv_p (s v : Nat) : Int := ((v : Int) * (255 - (s : Int))) >>> (8 : Nat)

/-- Right-hand side of `uint8_t q = (v * (255 - ((s * remainder) >> 8))) >> 8;`. -/
def hsv_q (s v remainder : Nat) : Int :=
  ((v : Int) * (255 - (((s : Int) * (remainder : Int)) >>> (8 : Nat)))) >>> (8 : Nat)

/-- Right-hand side of
`uint8_t t = (v * (255 - ((s * (255 - remainder)) >> 8))) >> 8;`. -/
def hsv_t (s v remainder : Nat) : Int :=
  ((v : Int) * (255 - (((s : Int) * (255 - (remainder : Int))) >>> (8 : Nat)))) >>> (8 : Nat)

/-- The function `hsv_to_rgb(h, s, v, &r, &g, &b)`; the result is the triple
written through the three pointers. -/
def hsv_to_rgb (h s v : Nat) : Nat × Nat × Nat :=
  if s = 0 then (v, v, v)
  else
    let region : Nat := to_uint8 (hsv_region h)
    let remainder : Nat := to_uint8 (hsv_remainder h region)
    let p : Nat := to_uint8 (hsv_p s v)
    let q : Nat := to_uint8 (hsv_q s v remainder)
    let t : Nat := to_uint8 (hsv_t s v remainder)
    match region with
    | 0 => (v, t, p)
    | 1 => (q, v, p)
    | 2 => (p, v, t)
    | 3 => (p, q, v)
    | 4 => (t, p, v)
    | _ => (v, p, q)

/-- The conversion as the specification words it, over the integers with
truncating division; it is defined for the six regions 0..5 only. -/
def hsv_to_rgb_spec (h s v : Int) : Option (Int × Int × Int) :=
  if s = 0 then some (v, v, v)
  else
    let region := Int.tdiv h 43
    let remainder := (h - region * 43) * 6
    let p := Int.tdiv (v * (255 - s)) 256
    let q := Int.tdiv (v * (255 - Int.tdiv (s * remainder) 256)) 256
    let t := Int.tdiv (v * (255 - Int.tdiv (s * (255 - remainder)) 256)) 256
    if region = 0 then some (v, t, p)
    else if region = 1 then some (q, v, p)
    else if region = 2 then some (p, v, t)
    else if region = 3 then some (p, q, v)
    else if region = 4 then some (t, p, v)
    else if region = 5 then some (v, p, q)
    else none

/-! ## Device state -/

/-- The record `system_state_t`.  The fields `red`, `green`, `blue` and
`brightness` are `uint8_t`, `effect` is a `light_effect_t`, `effect_speed` a
`uint16_t` and `light_value` an `int`. -/
structure system_state_t where
  is_auto_mode : Bool
  is_light_on : Bool
  light_value : Int
  motion_detected : Bool
  red : Nat
  green : Nat
  blue : Nat
  brightness : Nat
  effect : Nat
  effect_speed : Nat
  deriving DecidableEq, Repr

/-- One pixel value (red, green, blue). -/
abbrev pixel : Type := Nat × Nat × Nat

/-- A call made to the LED strip driver. -/
inductive led_call where
  | set_pixel (index red green blue : Nat)
  | refresh
  | clear
  deriving DecidableEq, Repr

/-- A frame of the strip: exactly `LED_STRIP_LENGTH` pixel values. -/
abbrev frame : Type := { l : List pixel // l.length = LED_STRIP_LENGTH }

/-- The frame with every pixel off. -/
def frame_off : frame := ⟨List.replicate LED_STRIP_LENGTH (0, 0, 0), by simp⟩

/-- The frame in which pixel `index` is replaced; an index outside the strip
replaces nothing. -/
def frame_set (f : frame) (index : Nat) (p : pixel) : frame :=
  ⟨f.val.set index p, by simp [f.property]⟩

/-- The frame in which every pixel has the value `p`. -/
def frame_fill (p : pixel) : frame := ⟨List.replicate LED_STRIP_LENGTH p, by simp⟩

/-- The LED strip behind the handle `led_strip`: the pixel buffer filled by
`led_strip_set_pixel`, the frame last transmitted to the pixels, and the
driver calls made so far (oldest first). -/
structure led_strip_t where
  buffer : frame
  shown : frame
  calls : List led_call
  deriving DecidableEq

/-- Everything the three tasks share or keep between iterations: the global
`system_state`, the strip, and the local `hue` of `light_effect_task`.  The
`float` local `breath_phase` is not part of the embedding; the value computed
from it enters `light_effect_tick` as an argument. -/
structure device_t where
  system_state : system_state_t
  led_strip : led_strip_t
  hue : Nat
  deriving DecidableEq

/-- The initializer of the global `system_state`. -/
def system_state_init : system_state_t :=
  { is_auto_mode := true
    is_light_on := false
    light_value := 0
    motion_detected := false
    red := 255
    green := 255
    blue := 255
    brightness := 100
    effect := EFFECT_NONE
    effect_speed := 50 }

/-! ## LED strip driver -/

/-- Driver call `led_strip_set_pixel(led_strip, index, r, g, b)`: stages one
pixel; an index outside the strip changes no pixel. -/
def led_strip_set_pixel (l : led_strip_t) (index r g b : Nat) : led_strip_t :=
  { l with
    buffer := frame_set l.buffer index (r, g, b)
    calls := l.calls ++ [led_call.set_pixel index r g b] }

/-- Driver call `led_strip_refresh(led_strip)`: transmits the staged frame. -/
def led_strip_refresh (l : led_strip_t) : led_strip_t :=
  { l with shown := l.buffer, calls := l.calls ++ [led_call.refresh] }

/-- Driver call `led_strip_clear(led_strip)`: all pixels off, transmitted. -/
def led_strip_clear (l : led_strip_t) : led_strip_t :=
  { buffer := frame_off, shown := frame_off, calls := l.calls ++ [led_call.clear] }

/-- The strip as `app_main` leaves it: created with `LED_STRIP_LENGTH` pixels
and cleared. -/
def led_strip_init : led_strip_t :=
  led_strip_clear { buffer := frame_off, shown := frame_off, calls := [] }

/-- The device when the tasks start. -/
def device_init : device_t :=
  { system_state := system_state_init, led_strip := led_strip_init, hue := 0 }

/-! ## WS2812 control functions -/

/-- The function `apply_brightness(&r, &g, &b)`: each component becomes
`(component * system_state.brightness) / 100`, stored back into a `uint8_t`. -/
def apply_brightness (st : system_state_t) (r g b : Nat) : Nat × Nat × Nat :=
  (to_uint8 (((r : Int) * (st.brightness : Int)) / 100),
   to_uint8 (((g : Int) * (st.brightness : Int)) / 100),
   to_uint8 (((b : Int) * (st.brightness : Int)) / 100))

/-- The loop `for (i = 0; i < LED_STRIP_LENGTH; i++) led_strip_set_pixel(..., i, r, g, b)`. -/
def set_pixels_loop (l : led_strip_t) (r g b : Nat) : led_strip_t :=
  (List.range LED_STRIP_LENGTH).foldl (fun acc i => led_strip_set_pixel acc i r g b) l

/-- The function `set_all_leds(r, g, b)`. -/
def set_all_leds (d : device_t) (r g b : Nat) : device_t :=
  let c := apply_brightness d.system_state r g b
  { d with led_strip := led_strip_refresh (set_pixels_loop d.led_strip c.1 c.2.1 c.2.2) }

/-- The function `clear_all_leds()`. -/
def clear_all_leds (d : device_t) : device_t :=
  { d with led_strip := led_strip_clear d.led_strip }

/-- The function `turn_on_light()`. -/
def turn_on_light (d : device_t) : device_t :=
  let d1 := set_all_leds d d.system_state.red d.system_state.green d.system_state.blue
  { d1 with system_state := { d1.system_state with is_light_on := true } }

/-- The function `turn_off_light()`. -/
def turn_off_light (d : device_t) : device_t :=
  let d1 := clear_all_leds d
  { d1 with system_state := { d1.system_state with is_light_on := false } }

/-- The function `set_rgb_color(r, g, b)`; the arguments are already `uint8_t`. -/
def set_rgb_color (d : device_t) (r g b : Nat) : device_t :=
  let d1 := { d with system_state := { d.system_state with red := r, green := g, blue := b } }
  if d1.system_state.is_light_on then set_all_leds d1 r g b else d1

/-- The function `set_brightness(brightness)`; the argument is already a
`uint8_t`. -/
def set_brightness (d : device_t) (brightness : Nat) : device_t :=
  let brightness := if brightness > 100 then 100 else brightness
  let d1 := { d with system_state := { d.system_state with brightness := brightness } }
  if d1.system_state.is_light_on then
    set_all_leds d1 d1.system_state.red d1.system_state.green d1.system_state.blue
  else d1

/-! ## HTTP handlers -/

/-- The snapshot that `status_get_handler` serialises. -/
structure status_json where
  auto_mode : Bool
  light_on : Bool
  light_value : Int
  motion : Bool
  red : Nat
  green : Nat
  blue : Nat
  brightness : Nat
  effect : Nat
  deriving DecidableEq, Repr

/-- The handler `status_get_handler`: the object built from `system_state`. -/
def status_get_handler (d : device_t) : status_json :=
  { auto_mode := d.system_state.is_auto_mode
    light_on := d.system_state.is_light_on
    light_value := d.system_state.light_value
    motion := d.system_state.motion_detected
    red := d.system_state.red
    green := d.system_state.green
    blue := d.system_state.blue
    brightness := d.system_state.brightness
    effect := d.system_state.effect }

/-- A parsed request body as the handler looks at it through
`cJSON_GetObjectItem`: `action` is `none` when the item is absent,
`some none` when it is present but not a string; every other item is `none`
when absent and otherwise carries its `valueint` (an `int`). -/
structure json_body where
  action : Option (Option String)
  r : Option Int
  g : Option Int
  b : Option Int
  brightness : Option Int
  effect : Option Int
  deriving DecidableEq, Repr

/-- What `control_post_handler` obtains from the request: a failed receive
(`ret <= 0`), a body `cJSON_Parse` rejects, or a parsed body. -/
inductive control_request where
  | recv_failed
  | parse_failed
  | parsed (root : json_body)
  deriving DecidableEq, Repr

/-- The answer of a handler: `httpd_resp_send_500` or `httpd_resp_sendstr`. -/
inductive http_response where
  | send_500
  | sendstr (body : String)
  deriving DecidableEq, Repr

/-- The dispatch on `action` inside `control_post_handler`. -/
def control_dispatch (root : json_body) (d : device_t) : device_t :=
  match root.action with
  | some (some cmd) =>
    if cmd = "on" then
      turn_on_light { d with system_state := { d.system_state with effect := EFFECT_NONE } }
    else if cmd = "off" then
      turn_off_light d
    else if cmd = "toggle_mode" then
      { d with system_state :=
          { d.system_state with is_auto_mode := !d.system_state.is_auto_mode } }
    else if cmd = "set_color" then
      match root.r, root.g, root.b with
      | some r, some g, some b =>
        set_rgb_color { d with system_state := { d.system_state with effect := EFFECT_NONE } }
          (to_uint8 r) (to_uint8 g) (to_uint8 b)
      | _, _, _ => d
    else if cmd = "set_brightness" then
      match root.brightness with
      | some brightness => set_brightness d (to_uint8 brightness)
      | none => d
    else if cmd = "set_effect" then
      match root.effect with
      | some effect =>
        let d1 := { d with system_state := { d.system_state with effect := to_effect effect } }
        if d1.system_state.effect ≠ EFFECT_NONE ∧ d1.system_state.is_light_on = false then
          turn_on_light d1
        else d1
      | none => d
    else d
  | _ => d

/-- The handler `control_post_handler`: the device afterwards and the answer. -/
def control_post_handler (req : control_request) (d : device_t) : device_t × http_response :=
  match req with
  | control_request.recv_failed => (d, http_response.send_500)
  | control_request.parse_failed => (d, http_response.send_500)
  | control_request.parsed root =>
    (control_dispatch root d, http_response.sendstr "\x7b\"status\":\"ok\"\x7d")

/-- A body that carries only the item `action`, a string. -/
def body_action (cmd : String) : json_body :=
  { action := some (some cmd), r := none, g := none, b := none,
    brightness := none, effect := none }

/-- The control commands of the API, with their integer arguments. -/
inductive command where
  | on
  | off
  | toggle_mode
  | set_color (r g b : Int)
  | set_brightness (pct : Int)
  | set_effect (id : Int)
  deriving DecidableEq, Repr

/-- The request body that carries a command. -/
def command.body : command → json_body
  | command.on => body_action "on"
  | command.off => body_action "off"
  | command.toggle_mode => body_action "toggle_mode"
  | command.set_color r g b =>
    { body_action "set_color" with r := some r, g := some g, b := some b }
  | command.set_brightness pct =>
    { body_action "set_brightness" with brightness := some pct }
  | command.set_effect id =>
    { body_action "set_effect" with effect := some id }

/-- The device after `control_post_handler` has served a command. -/
def run_command (c : command) (d : device_t) : device_t :=
  (control_post_handler (control_request.parsed c.body) d).1

/-! ## Sensor monitor task -/

/-- One iteration of the loop of `sensor_monitor_task`, given the values
returned by `read_light_sensor()` and `read_pir_sensor()`.  Logging and the
telemetry push read the state and change none of it. -/
def sensor_monitor_tick (light : Int) (motion : Bool) (d : device_t) : device_t :=
  let d1 := { d with system_state :=
    { d.system_state with light_value := light, motion_detected := motion } }
  if d1.system_state.is_auto_mode then
    let should_on : Bool :=
      decide (d1.system_state.light_value > LIGHT_THRESHOLD) && d1.system_state.motion_detected
    if should_on && !d1.system_state.is_light_on then
      turn_on_light { d1 with system_state := { d1.system_state with effect := EFFECT_NONE } }
    else if !should_on && d1.system_state.is_light_on then
      turn_off_light d1
    else d1
  else d1

/-! ## Light effect task -/

/-- The pixel loop of the `EFFECT_RAINBOW_CYCLE` case, from index `i` for
`n` more pixels. -/
def rainbow_cycle_loop (st : system_state_t) (hue : Nat) :
    Nat → Nat → led_strip_t → led_strip_t
  | _, 0, l => l
  | i, n + 1, l =>
    let pixel_hue : Nat :=
      Int.toNat (((hue : Int) + ((i : Int) * 256 / (LED_STRIP_LENGTH : Int))) % 256)
    let c := hsv_to_rgb pixel_hue 255 255
    let c1 := apply_brightness st c.1 c.2.1 c.2.2
    rainbow_cycle_loop st hue (i + 1) n (led_strip_set_pixel l i c1.1 c1.2.1 c1.2.2)

/-- One iteration of the loop of `light_effect_task`: the device afterwards
and the argument in milliseconds of the `vTaskDelay` it ends with (`none`
when the iteration reaches no delay).  `temp_brightness` is the `uint8_t`
value that the `EFFECT_BREATH` case computes in floating point from
`breath_phase` and `system_state.brightness`. -/
def light_effect_tick (temp_brightness : Nat) (d : device_t) : device_t × Option Int :=
  let st := d.system_state
  if st.is_light_on ∧ st.effect ≠ EFFECT_NONE then
    if st.effect = EFFECT_RAINBOW then
      let c := hsv_to_rgb d.hue 255 255
      let d1 := set_all_leds d c.1 c.2.1 c.2.2
      ({ d1 with hue := (d.hue + 1) % 256 }, some (100 - (st.effect_speed : Int)))
    else if st.effect = EFFECT_RAINBOW_CYCLE then
      let l := led_strip_refresh (rainbow_cycle_loop st d.hue 0 LED_STRIP_LENGTH d.led_strip)
      ({ d with led_strip := l, hue := (d.hue + 1) % 256 },
        some (100 - (st.effect_speed : Int)))
    else if st.effect = EFFECT_BREATH then
      let r := to_uint8 (((st.red : Int) * (temp_brightness : Int)) / 100)
      let g := to_uint8 (((st.green : Int) * (temp_brightness : Int)) / 100)
      let b := to_uint8 (((st.blue : Int) * (temp_brightness : Int)) / 100)
      ({ d with led_strip := led_strip_refresh (set_pixels_loop d.led_strip r g b) }, some 50)
    else (d, none)
  else (d, some 100)

/-- The function `clamp` of the specification: `x` limited to `[lo, hi]`. -/
def clamp (x lo hi : Int) : Int := if x < lo then lo else if x > hi then hi else x

/-- A device with power on at brightness 50: the initial device after the
commands set_brightness 50 and on. -/
def device_lit : device_t :=
  run_command command.on (run_command (command.set_brightness 50) device_init)

/-- A device with power on and the Rainbow effect set: the initial device
after the command set_effect 3. -/
def device_rainbow : device_t :=
  run_command (command.set_effect 3) device_init

/-! ## Interleaving of the tasks -/

/-- One step of the system: a `/control` request served, one iteration of the
sensor monitor loop, or one iteration of the light effect loop. -/
inductive step : device_t → device_t → Prop where
  | control (req : control_request) (d : device_t) :
      step d (control_post_handler req d).1
  | sensor (light : Int) (motion : Bool) (d : device_t) :
      step d (sensor_monitor_tick light motion d)
  | effect (temp_brightness : Nat) (d : device_t) :
      step d (light_effect_tick temp_brightness d).1

/-- The devices reachable from `device_init`. -/
inductive reachable : device_t → Prop where
  | init : reachable device_init
  | next (d d1 : device_t) : reachable d → step d d1 → reachable d1

/-- The brightness scaling as the specification words it:
`component * brightness / 100` with integer truncation, on each component. -/
def scale_spec (brightness : Nat) (c : pixel) : pixel :=
  (c.1 * brightness / 100, c.2.1 * brightness / 100, c.2.2 * brightness / 100)

/-- The hue of pixel `i` in the `EFFECT_RAINBOW_CYCLE` case:
`(hue + (i * 256 / LED_STRIP_LENGTH)) % 256`. -/
def pixel_hue (hue i : Nat) : Nat :=
  Int.toNat (((hue : Int) + ((i : Int) * 256 / (LED_STRIP_LENGTH : Int))) % 256)

/-- A device with power on and the Fade effect set: the initial device after
the command set_effect 1. -/
def device_fade : device_t :=
  run_command (command.set_effect 1) device_init

/-- A device with power on and the Breath effect set: the initial device
after the command set_effect 2. -/
def device_breath : device_t :=
  run_command (command.set_effect 2) device_init

/-- A device with power on at brightness 50 and the RainbowCycle effect set:
the initial device after the commands set_brightness 50 and set_effect 4. -/
def device_cycle_dim : device_t :=
  run_command (command.set_effect 4) (run_command (command.set_brightness 50) device_init)

/-! ## Statement-level view of the writers

The functions above take a whole handler call or loop iteration as one step.
The tasks are preemptively scheduled and the code takes no lock, so another
task can run between two statements of a writer.  The definitions below list
the statements a writer executes, in order; each statement is one store into
`system_state` or one call of the output path. -/

/-- One statement of a writer of `system_state`. -/
inductive stmt where
  | store_light_value (v : Int)
  | store_motion_detected (v : Bool)
  | store_effect (v : Nat)
  | store_is_light_on (v : Bool)
  | store_red (v : Nat)
  | store_green (v : Nat)
  | store_blue (v : Nat)
  | call_set_all_leds (r g b : Nat)
  | call_set_all_leds_state
  | call_clear_all_leds
  deriving DecidableEq, Repr

/-- The device after one statement; `call_set_all_leds_state` is the call
`set_all_leds(system_state.red, system_state.green, system_state.blue)`. -/
def stmt.exec : stmt → device_t → device_t
  | stmt.store_light_value v, d =>
    { d with system_state := { d.system_state with light_value := v } }
  | stmt.store_motion_detected v, d =>
    { d with system_state := { d.system_state with motion_detected := v } }
  | stmt.store_effect v, d => { d with system_state := { d.system_state with effect := v } }
  | stmt.store_is_light_on v, d =>
    { d with system_state := { d.system_state with is_light_on := v } }
  | stmt.store_red v, d => { d with system_state := { d.system_state with red := v } }
  | stmt.store_green v, d => { d with system_state := { d.system_state with green := v } }
  | stmt.store_blue v, d => { d with system_state := { d.system_state with blue := v } }
  | stmt.call_set_all_leds r g b, d => set_all_leds d r g b
  | stmt.call_set_all_leds_state, d =>
    set_all_leds d d.system_state.red d.system_state.green d.system_state.blue
  | stmt.call_clear_all_leds, d => clear_all_leds d

/-- The device after a sequence of statements, run without interruption. -/
def exec_stmts (l : List stmt) (d : device_t) : device_t :=
  l.foldl (fun acc s => s.exec acc) d

/-- The statements of `turn_on_light()`. -/
def turn_on_light_stmts : List stmt :=
  [stmt.call_set_all_leds_state, stmt.store_is_light_on true]

/-- The statements of `turn_off_light()`. -/
def turn_off_light_stmts : List stmt :=
  [stmt.call_clear_all_leds, stmt.store_is_light_on false]

/-- The statements of the branch `on` of `control_post_handler`. -/
def on_stmts : List stmt :=
  stmt.store_effect EFFECT_NONE :: turn_on_light_stmts

/-- The statements of the branch `set_color` of `control_post_handler`, with
`r`, `g`, `b` present and already converted to `uint8_t`, started on `d`. -/
def set_color_stmts (r g b : Nat) (d : device_t) : List stmt :=
  [stmt.store_effect EFFECT_NONE, stmt.store_red r, stmt.store_green g, stmt.store_blue b]
    ++ (if d.system_state.is_light_on then [stmt.call_set_all_leds r g b] else [])

/-- The statements of one iteration of the loop of `sensor_monitor_task`,
started on `d`. -/
def sensor_monitor_stmts (light : Int) (motion : Bool) (d : device_t) : List stmt :=
  [stmt.store_light_value light, stmt.store_motion_detected motion]
    ++ (if d.system_state.is_auto_mode then
          let should_on : Bool := decide (light > LIGHT_THRESHOLD) && motion
          if should_on && !d.system_state.is_light_on then
            stmt.store_effect EFFECT_NONE :: turn_on_light_stmts
          else if !should_on && d.system_state.is_light_on then
            turn_off_light_stmts
          else []
        else [])

/-- A device in Auto mode with power off and the Rainbow effect still
stored: the initial device after the commands set_effect 3 and off. -/
def device_rainbow_off : device_t :=
  run_command command.off device_rainbow

end WS2812

/-! # The receive step of the POST handlers -/

namespace Httpd

/-- What the first lines of a POST handler do with the byte count `ret` that
`httpd_req_recv` returns: the 500 answer when `ret <= 0`, otherwise the
terminating NUL written at index `ret`, inside the buffer or past its end. -/
inductive recv_outcome where
  | send_500
  | nul_written (index : Nat)
  | nul_out_of_bounds (index : Nat)
  deriving DecidableEq, Repr

/-- The lines `if (ret <= 0) { httpd_resp_send_500(req); return ESP_FAIL; }`
and `buf[ret] = 0;` for a buffer of `buf_len` bytes. -/
def terminate_body (buf_len : Nat) (ret : Int) : recv_outcome :=
  if ret ≤ 0 then recv_outcome.send_500
  else if ret < (buf_len : Int) then recv_outcome.nul_written ret.toNat
  else recv_outcome.nul_out_of_bounds ret.toNat

end Httpd

/-! # WiFi event handler (`event_handler`, the same in the three files) -/

namespace Wifi

/-- Retry limit: `#define WIFI_MAXIMUM_RETRY 5`. -/
def WIFI_MAXIMUM_RETRY : Int := 5

/-- The events the handler distinguishes by `event_base` and `event_id`;
`other` is any other event it is registered for. -/
inductive wifi_event where
  | sta_start
  | sta_disconnected
  | sta_got_ip
  | other
  deriving DecidableEq, Repr

/-- The state the handler works on: the global `s_retry_num`, the two bits
of `s_wifi_event_group`, and the number of calls of `esp_wifi_connect()`
made so far. -/
structure wifi_t where
  s_retry_num : Int
  connected_bit : Bool
  fail_bit : Bool
  connect_calls : Nat
  deriving DecidableEq, Repr

/-- The state when `wifi_init_sta` has created the event group. -/
def wifi_init : wifi_t :=
  { s_retry_num := 0, connected_bit := false, fail_bit := false, connect_calls := 0 }

/-- The function `event_handler`. -/
def event_handler (e : wifi_event) (w : wifi_t) : wifi_t :=
  match e with
  | wifi_event.sta_start => { w with connect_calls := w.connect_calls + 1 }
  | wifi_event.sta_disconnected =>
    if w.s_retry_num < WIFI_MAXIMUM_RETRY then
      { w with connect_calls := w.connect_calls + 1, s_retry_num := w.s_retry_num + 1 }
    else
      { w with fail_bit := true }
  | wifi_event.sta_got_ip => { w with s_retry_num := 0, connected_bit := true }
  | wifi_event.other => w

/-- The state after the handler has served a sequence of events. -/
def run_events (es : List wifi_event) (w : wifi_t) : wifi_t :=
  es.foldl (fun acc e => event_handler e acc) w

/-- The state in which the handler has just signalled failure: six
disconnect events in a row from the start. -/
def wifi_failed : wifi_t :=
  run_events (List.replicate 6 wifi_event.sta_disconnected) wifi_init

end Wifi

/-! # Relay variant (`smartlight.c`) -/

namespace SmartLight

/-- Dark threshold: `#define LIGHT_THRESHOLD 3000`. -/
def LIGHT_THRESHOLD : Int := 3000

/-- The record `system_state_t`. -/
structure system_state_t where
  is_auto_mode : Bool
  is_light_on : Bool
  light_value : Int
  motion_detected : Bool
  deriving DecidableEq, Repr

/-- The global `system_state`, the level of `RELAY_PIN`, and the levels
written to it by `gpio_set_level` so far (oldest first). -/
structure device_t where
  system_state : system_state_t
  relay : Nat
  gpio_calls : List Nat
  deriving DecidableEq, Repr

/-- The device when the tasks start: the initializer of `system_state`, and
the relay after `hardware_init`. -/
def device_init : device_t :=
  { system_state :=
      { is_auto_mode := true, is_light_on := false, light_value := 0, motion_detected := false }
    relay := 0
    gpio_calls := [0] }

/-- The call `gpio_set_level(RELAY_PIN, level)`. -/
def gpio_set_level (d : device_t) (level : Nat) : device_t :=
  { d with relay := level, gpio_calls := d.gpio_calls ++ [level] }

/-- The function `turn_on_light()`. -/
def turn_on_light (d : device_t) : device_t :=
  let d1 := gpio_set_level d 1
  { d1 with system_state := { d1.system_state with is_light_on := true } }

/-- The function `turn_off_light()`. -/
def turn_off_light (d : device_t) : device_t :=
  let d1 := gpio_set_level d 0
  { d1 with system_state := { d1.system_state with is_light_on := false } }

/-- A parsed request body as the handlers look at it: each item is `none`
when absent, `some none` when present but not a boolean, and otherwise
carries the boolean. -/
structure json_body where
  light : Option (Option Bool)
  auto_mode : Option (Option Bool)
  deriving DecidableEq, Repr

/-- What a POST handler obtains from the request: a failed receive
(`ret <= 0`), a body `cJSON_Parse` rejects, or a parsed body. -/
inductive post_request where
  | recv_failed
  | parse_failed
  | parsed (root : json_body)
  deriving DecidableEq, Repr

/-- The answer of a handler: `httpd_resp_send_500`, or `httpd_resp_send`
with its buffer and length. -/
inductive http_response where
  | send_500
  | send (buf : String) (len : Nat)
  deriving DecidableEq, Repr

/-- The rejection body `err_msg` of `control_post_handler`. -/
def err_msg : String :=
  "\x7b\"success\":false,\"message\":\"Cannot control manually in auto mode\"\x7d"

/-- The handler `control_post_handler`: the device afterwards and the answer. -/
def control_post_handler (req : post_request) (d : device_t) : device_t × http_response :=
  match req with
  | post_request.recv_failed => (d, http_response.send_500)
  | post_request.parse_failed => (d, http_response.send_500)
  | post_request.parsed root =>
    match root.light with
    | some (some light) =>
      if !d.system_state.is_auto_mode then
        (if light then turn_on_light d else turn_off_light d,
          http_response.send "\x7b\"success\":true\x7d" 17)
      else (d, http_response.send err_msg err_msg.length)
    | _ => (d, http_response.send err_msg err_msg.length)

/-- The handler `mode_post_handler`: the device afterwards and the answer. -/
def mode_post_handler (req : post_request) (d : device_t) : device_t × http_response :=
  match req with
  | post_request.recv_failed => (d, http_response.send_500)
  | post_request.parse_failed => (d, http_response.send_500)
  | post_request.parsed root =>
    match root.auto_mode with
    | some (some auto_mode) =>
      ({ d with system_state := { d.system_state with is_auto_mode := auto_mode } },
        http_response.send "\x7b\"success\":true\x7d" 17)
    | _ => (d, http_response.send_500)

/-- One iteration of the loop of `sensor_task`, given the values returned by
`read_light_sensor()` and `read_pir_sensor()`. -/
def sensor_task_tick (light : Int) (motion : Bool) (d : device_t) : device_t :=
  let d1 := { d with system_state :=
    { d.system_state with light_value := light, motion_detected := motion } }
  if d1.system_state.is_auto_mode then
    let should_light_on : Bool :=
      decide (d1.system_state.light_value > LIGHT_THRESHOLD) && d1.system_state.motion_detected
    if should_light_on && !d1.system_state.is_light_on then turn_on_light d1
    else if !should_light_on && d1.system_state.is_light_on then turn_off_light d1
    else d1
  else d1

/-- The initial device switched to Manual mode by a POST /mode request. -/
def device_manual : device_t :=
  (mode_post_handler
    (post_request.parsed { light := none, auto_mode := some (some false) }) device_init).1

/-- Length of the receive buffer of `control_post_handler`:
`char content[100]`. -/
def control_content_len : Nat := 100

/-- The size `control_post_handler` passes to `httpd_req_recv`:
`sizeof(content)`. -/
def control_recv_size : Nat := control_content_len

/-- The receive step of `control_post_handler` for the byte count `ret`. -/
def control_recv (ret : Int) : Httpd.recv_outcome :=
  Httpd.terminate_body control_content_len ret

/-- Length of the receive buffer of `mode_post_handler`: `char content[100]`. -/
def mode_content_len : Nat := 100

/-- The size `mode_post_handler` passes to `httpd_req_recv`:
`sizeof(content)`. -/
def mode_recv_size : Nat := mode_content_len

/-- The receive step of `mode_post_handler` for the byte count `ret`. -/
def mode_recv (ret : Int) : Httpd.recv_outcome :=
  Httpd.terminate_body mode_content_len ret

end SmartLight

/-! # Relay variant with the low-reading threshold (`smartlightrgb.c`) -/

namespace SmartLightRGB

/-- Dark threshold: `#define LIGHT_THRESHOLD 1500`. -/
def LIGHT_THRESHOLD : Int := 1500

/-- The record `system_state_t`. -/
structure system_state_t where
  is_auto_mode : Bool
  is_light_on : Bool
  light_value : Int
  motion_detected : Bool
  deriving DecidableEq, Repr

/-- The global `system_state`, the level of `RELAY_PIN`, and the levels
written to it by `gpio_set_level` so far (oldest first). -/
structure device_t where
  system_state : system_state_t
  relay : Nat
  gpio_calls : List Nat
  deriving DecidableEq, Repr

/-- The device when the tasks start: the initializer of `system_state`, and
the relay after `hardware_init`. -/
def device_init : device_t :=
  { system_state :=
      { is_auto_mode := true, is_light_on := false, light_value := 0, motion_detected := false }
    relay := 0
    gpio_calls := [0] }

/-- The call `gpio_set_level(RELAY_PIN, level)`. -/
def gpio_set_level (d : device_t) (level : Nat) : device_t :=
  { d with relay := level, gpio_calls := d.gpio_calls ++ [level] }

/-- The function `turn_on_light()`. -/
def turn_on_light (d : device_t) : device_t :=
  let d1 := gpio_set_level d 1
  { d1 with system_state := { d1.system_state with is_light_on := true } }

/-- The function `turn_off_light()`. -/
def turn_off_light (d : device_t) : device_t :=
  let d1 := gpio_set_level d 0
  { d1 with system_state := { d1.system_state with is_light_on := false } }

/-- A parsed request body as the handlers look at it: each item is `none`
when absent, `some none` when present but not a boolean, and otherwise
carries the boolean. -/
structure json_body where
  light : Option (Option Bool)
  auto_mode : Option (Option Bool)
  deriving DecidableEq, Repr

/-- What a POST handler obtains from the request: a failed receive
(`ret <= 0`), a body `cJSON_Parse` rejects, or a parsed body. -/
inductive post_request where
  | recv_failed
  | parse_failed
  | parsed (root : json_body)
  deriving DecidableEq, Repr

/-- The answer of a handler: `httpd_resp_send_500`, or `httpd_resp_send`
with its buffer and length. -/
inductive http_response where
  | send_500
  | send (buf : String) (len : Nat)
  deriving DecidableEq, Repr

/-- The rejection body `err_msg` of `control_post_handler`. -/
def err_msg : String :=
  "\x7b\"success\":false,\"message\":\"Cannot control manually in auto mode\"\x7d"

/-- The handler `control_post_handler`: the device afterwards and the answer. -/
def control_post_handler (req : post_request) (d : device_t) : device_t × http_response :=
  match req with
  | post_request.recv_failed => (d, http_response.send_500)
  | post_request.parse_failed => (d, http_response.send_500)
  | post_request.parsed root =>
    match root.light with
    | some (some light) =>
      if !d.system_state.is_auto_mode then
        (if light then turn_on_light d else turn_off_light d,
          http_response.send "\x7b\"success\":true\x7d" 17)
      else (d, http_response.send err_msg err_msg.length)
    | _ => (d, http_response.send err_msg err_msg.length)

/-- The handler `mode_post_handler`: the device afterwards and the answer. -/
def mode_post_handler (req : post_request) (d : device_t) : device_t × http_response :=
  match req with
  | post_request.recv_failed => (d, http_response.send_500)
  | post_request.parse_failed => (d, http_response.send_500)
  | post_request.parsed root =>
    match root.auto_mode with
    | some (some auto_mode) =>
      ({ d with system_state := { d.system_state with is_auto_mode := auto_mode } },
        http_response.send "\x7b\"success\":true\x7d" 17)
    | _ => (d, http_response.send_500)

/-- One iteration of the loop of `sensor_task`, given the values returned by
`read_light_sensor()` and `read_pir_sensor()`. -/
def sensor_task_tick (light : Int) (motion : Bool) (d : device_t) : device_t :=
  let d1 := { d with system_state :=
    { d.system_state with light_value := light, motion_detected := motion } }
  if d1.system_state.is_auto_mode then
    let should_light_on : Bool :=
      decide (d1.system_state.light_value < LIGHT_THRESHOLD) && d1.system_state.motion_detected
    if should_light_on && !d1.system_state.is_light_on then turn_on_light d1
    else if !should_light_on && d1.system_state.is_light_on then turn_off_light d1
    else d1
  else d1

/-- The initial device switched to Manual mode by a POST /mode request. -/
def device_manual : device_t :=
  (mode_post_handler
    (post_request.parsed { light := none, auto_mode := some (some false) }) device_init).1

/-- Length of the receive buffer of `control_post_handler`:
`char content[100]`. -/
def control_content_len : Nat := 100

/-- The size `control_post_handler` passes to `httpd_req_recv`:
`sizeof(content)`. -/
def control_recv_size : Nat := control_content_len

/-- The receive step of `control_post_handler` for the byte count `ret`. -/
def control_recv (ret : Int) : Httpd.recv_outcome :=
  Httpd.terminate_body control_content_len ret

/-- Length of the receive buffer of `mode_post_handler`: `char content[100]`. -/
def mode_content_len : Nat := 100

/-- The size `mode_post_handler` passes to `httpd_req_recv`:
`sizeof(content)`. -/
def mode_recv_size : Nat := mode_content_len

/-- The receive step of `mode_post_handler` for the byte count `ret`. -/
def mode_recv (ret : Int) : Httpd.recv_outcome :=
  Httpd.terminate_body mode_content_len ret

end SmartLightRGB

namespace WS2812

/-! ## The receive step of `control_post_handler` -/

/-- Length of the receive buffer of `control_post_handler`: `char buf[200]`. -/
def control_buf_len : Nat := 200

/-- The size `control_post_handler` passes to `httpd_req_recv`:
`sizeof(buf) - 1`. -/
def control_recv_size : Nat := control_buf_len - 1

/-- The receive step of `control_post_handler` for the byte count `ret`. -/
def control_recv (ret : Int) : Httpd.recv_outcome :=
  Httpd.terminate_body control_buf_len ret

/-! ## The effect loop with its phase, and run several times -/

/-- The floating-point part of the `EFFECT_BREATH` case, which the embedding
does not evaluate, over a type `φ` of phase values: `next_phase` stands for
`breath_phase += 0.05; if (breath_phase >= 2 * M_PI) breath_phase = 0;` and
`temp_brightness` for the value stored in the `uint8_t temp_brightness`,
computed from `system_state.brightness` and the phase. -/
structure breath_ops (φ : Type) where
  next_phase : φ → φ
  temp_brightness : Nat → φ → Nat

/-- One iteration of the loop of `light_effect_task` together with its local
`breath_phase`: the phase afterwards, the device afterwards and the delay.
Only the `EFFECT_BREATH` case assigns `breath_phase`. -/
def light_effect_task_tick {φ : Type} (ops : breath_ops φ) (breath_phase : φ)
    (d : device_t) : φ × device_t × Option Int :=
  if d.system_state.is_light_on ∧ d.system_state.effect = EFFECT_BREATH then
    (ops.next_phase breath_phase,
      light_effect_tick
        (ops.temp_brightness d.system_state.brightness (ops.next_phase breath_phase)) d)
  else (breath_phase, light_effect_tick 0 d)

/-- The device after `n` consecutive iterations of the loop of
`light_effect_task`, no other task running in between. -/
def light_effect_ticks (temp_brightness : Nat) : Nat → device_t → device_t
  | 0, d => d
  | n + 1, d => light_effect_ticks temp_brightness n (light_effect_tick temp_brightness d).1

/-! ## Requests with a defined effect -/

/-- Whether the `effect` item of a request, when present, is one of the five
enumerators of `light_effect_t`. -/
def effect_item_defined : control_request → Bool
  | control_request.parsed root =>
    match root.effect with
    | some e => decide (0 ≤ e ∧ e ≤ 4)
    | none => true
  | _ => true

/-- The devices reachable from `device_init` when every `/control` request
served has a defined effect item. -/
inductive reachable_defined : device_t → Prop where
  | init : reachable_defined device_init
  | control (req : control_request) (d : device_t) :
      reachable_defined d → effect_item_defined req = true →
      reachable_defined (control_post_handler req d).1
  | sensor (light : Int) (motion : Bool) (d : device_t) :
      reachable_defined d → reachable_defined (sensor_monitor_tick light motion d)
  | effect (temp_brightness : Nat) (d : device_t) :
      reachable_defined d → reachable_defined (light_effect_tick temp_brightness d).1

/-! ## Arithmetic of the 8-bit stores -/

theorem shiftRight_8 (x : Int) : x >>> (8 : Nat) = x / 256 := by
  rw [Int.shiftRight_eq_div_pow]
  norm_num

theorem to_uint8_cast (x : Int) (h0 : 0 ≤ x) (h1 : x < 256) : ((to_uint8 x : Nat) : Int) = x := by
  unfold to_uint8
  omega

theorem to_uint8_nat (n : Nat) (h : n < 256) : to_uint8 (n : Int) = n := by
  unfold to_uint8
  omega

theorem to_uint8_lt (x : Int) : to_uint8 x < 256 := by
  unfold to_uint8
  omega

theorem byte_mul_shift (a b : Int) (ha0 : 0 ≤ a) (ha : a ≤ 255) (hb0 : 0 ≤ b) (hb : b ≤ 255) :
    0 ≤ a * b ∧ 0 ≤ a * b / 256 ∧ a * b / 256 ≤ 254 := by
  have h1 : 0 ≤ a * b := by positivity
  have h2 : a * b ≤ 65025 := by nlinarith
  omega

/-! ## HSV to RGB: the stores do not wrap -/

theorem hsv_region_range (h : Nat) (hh : h ≤ 255) : 0 ≤ hsv_region h ∧ hsv_region h ≤ 5 := by
  unfold hsv_region
  omega

theorem hsv_remainder_range (h : Nat) (hh : h ≤ 255) :
    0 ≤ hsv_remainder h (to_uint8 (hsv_region h)) ∧
      hsv_remainder h (to_uint8 (hsv_region h)) ≤ 252 := by
  have hr := hsv_region_range h hh
  have hc := to_uint8_cast (hsv_region h) hr.1 (by omega)
  unfold hsv_remainder
  rw [hc]
  unfold hsv_region
  omega

theorem hsv_p_range (s v : Nat) (hs : s ≤ 255) (hv : v ≤ 255) :
    0 ≤ hsv_p s v ∧ hsv_p s v ≤ 254 := by
  unfold hsv_p
  rw [shiftRight_8]
  have := byte_mul_shift (v : Int) (255 - (s : Int)) (by omega) (by omega) (by omega) (by omega)
  omega

theorem hsv_q_range (s v m : Nat) (hs : s ≤ 255) (hv : v ≤ 255) (hm : m ≤ 255) :
    0 ≤ hsv_q s v m ∧ hsv_q s v m ≤ 254 := by
  unfold hsv_q
  rw [shiftRight_8, shiftRight_8]
  have h1 := byte_mul_shift (s : Int) (m : Int) (by omega) (by omega) (by omega) (by omega)
  have := byte_mul_shift (v : Int) (255 - ((s : Int) * (m : Int)) / 256)
    (by omega) (by omega) (by omega) (by omega)
  omega

theorem hsv_t_range (s v m : Nat) (hs : s ≤ 255) (hv : v ≤ 255) (hm : m ≤ 255) :
    0 ≤ hsv_t s v m ∧ hsv_t s v m ≤ 254 := by
  unfold hsv_t
  rw [shiftRight_8, shiftRight_8]
  have h1 := byte_mul_shift (s : Int) (255 - (m : Int)) (by omega) (by omega) (by omega) (by omega)
  have := byte_mul_shift (v : Int) (255 - ((s : Int) * (255 - (m : Int))) / 256)
    (by omega) (by omega) (by omega) (by omega)
  omega

/-- The code's triple, read as integers. -/
theorem hsv_to_rgb_eq_spec (h s v : Nat) (hh : h ≤ 255) (hs : s ≤ 255) (hv : v ≤ 255) :
    hsv_to_rgb_spec (h : Int) (s : Int) (v : Int)
      = some (((hsv_to_rgb h s v).1 : Int), ((hsv_to_rgb h s v).2.1 : Int),
          ((hsv_to_rgb h s v).2.2 : Int)) := by
  by_cases hs0 : s = 0
  · subst hs0
    simp [hsv_to_rgb, hsv_to_rgb_spec]
  · have hs0i : ¬ ((s : Int) = 0) := by omega
    have hR := hsv_region_range h hh
    have hM := hsv_remainder_range h hh
    have hn : ((to_uint8 (hsv_region h) : Nat) : Int) = hsv_region h :=
      to_uint8_cast _ hR.1 (by omega)
    have hm := to_uint8_cast _ hM.1 (show hsv_remainder h (to_uint8 (hsv_region h)) < 256 by omega)
    have hmle : to_uint8 (hsv_remainder h (to_uint8 (hsv_region h))) ≤ 255 := by
      have := to_uint8_lt (hsv_remainder h (to_uint8 (hsv_region h)))
      omega
    have hP := hsv_p_range s v hs hv
    have hQ := hsv_q_range s v _ hs hv hmle
    have hT := hsv_t_range s v _ hs hv hmle
    have hp := to_uint8_cast _ hP.1 (show hsv_p s v < 256 by omega)
    have hq := to_uint8_cast _ hQ.1 (by omega)
    have ht := to_uint8_cast _ hT.1 (by omega)
    have hnle : to_uint8 (hsv_region h) ≤ 5 := by omega
    -- the spec's truncating divisions are the code's shifts
    have e1 : Int.tdiv (h : Int) 43 = ((to_uint8 (hsv_region h) : Nat) : Int) := by
      rw [hn, Int.tdiv_eq_ediv (by omega) (by decide)]
      rfl
    have e2 : hsv_remainder h (to_uint8 (hsv_region h))
        = ((h : Int) - ((to_uint8 (hsv_region h) : Nat) : Int) * 43) * 6 := rfl
    have e3 : hsv_p s v = Int.tdiv ((v : Int) * (255 - (s : Int))) 256 := by
      have := byte_mul_shift (v : Int) (255 - (s : Int)) (by omega) (by omega) (by omega) (by omega)
      rw [Int.tdiv_eq_ediv this.1 (by decide)]
      unfold hsv_p
      rw [shiftRight_8]
    unfold hsv_to_rgb hsv_to_rgb_spec
    simp only [if_neg hs0, if_neg hs0i]
    generalize to_uint8 (hsv_region h) = n at *
    generalize to_uint8 (hsv_remainder h n) = m at *
    have e4 : hsv_q s v m
        = Int.tdiv ((v : Int) * (255 - Int.tdiv ((s : Int) * (m : Int)) 256)) 256 := by
      have h1 := byte_mul_shift (s : Int) (m : Int) (by omega) (by omega) (by omega) (by omega)
      have h2 := byte_mul_shift (v : Int) (255 - ((s : Int) * (m : Int)) / 256)
        (by omega) (by omega) (by omega) (by omega)
      rw [Int.tdiv_eq_ediv h1.1 (by decide), Int.tdiv_eq_ediv h2.1 (by decide)]
      unfold hsv_q
      rw [shiftRight_8, shiftRight_8]
    have e5 : hsv_t s v m
        = Int.tdiv ((v : Int) * (255 - Int.tdiv ((s : Int) * (255 - (m : Int))) 256)) 256 := by
      have h1 := byte_mul_shift (s : Int) (255 - (m : Int))
        (by omega) (by omega) (by omega) (by omega)
      have h2 := byte_mul_shift (v : Int) (255 - ((s : Int) * (255 - (m : Int))) / 256)
        (by omega) (by omega) (by omega) (by omega)
      rw [Int.tdiv_eq_ediv h1.1 (by decide), Int.tdiv_eq_ediv h2.1 (by decide)]
      unfold hsv_t
      rw [shiftRight_8, shiftRight_8]
    rw [e1, ← e2, ← hm, ← e3, ← e4, ← e5, ← hp, ← hq, ← ht]
    interval_cases n <;> simp [hp, hq, ht]

/-- C1: for h, s, v in [0,255] the triple computed by `hsv_to_rgb` is the
triple of the specification's integer formula (with truncating divisions and
the selection by region 0..5); the region lies in 0..5 and none of the 8-bit
stores of region, remainder, p, q, t changes the value stored. -/
theorem hsv_to_rgb_refines_spec (h s v : Nat) (hh : h ≤ 255) (hs : s ≤ 255) (hv : v ≤ 255) :
    hsv_to_rgb_spec (h : Int) (s : Int) (v : Int)
        = some (((hsv_to_rgb h s v).1 : Int), ((hsv_to_rgb h s v).2.1 : Int),
            ((hsv_to_rgb h s v).2.2 : Int))
      ∧ (0 ≤ hsv_region h ∧ hsv_region h ≤ 5)
      ∧ ((to_uint8 (hsv_region h) : Nat) : Int) = hsv_region h
      ∧ ((to_uint8 (hsv_remainder h (to_uint8 (hsv_region h))) : Nat) : Int)
          = hsv_remainder h (to_uint8 (hsv_region h))
      ∧ ((to_uint8 (hsv_p s v) : Nat) : Int) = hsv_p s v
      ∧ ((to_uint8 (hsv_q s v (to_uint8 (hsv_remainder h (to_uint8 (hsv_region h))))) : Nat) : Int)
          = hsv_q s v (to_uint8 (hsv_remainder h (to_uint8 (hsv_region h))))
      ∧ ((to_uint8 (hsv_t s v (to_uint8 (hsv_remainder h (to_uint8 (hsv_region h))))) : Nat) : Int)
          = hsv_t s v (to_uint8 (hsv_remainder h (to_uint8 (hsv_region h)))) := by
  have hR := hsv_region_range h hh
  have hM := hsv_remainder_range h hh
  have hmle : to_uint8 (hsv_remainder h (to_uint8 (hsv_region h))) ≤ 255 := by
    have := to_uint8_lt (hsv_remainder h (to_uint8 (hsv_region h)))
    omega
  have hP := hsv_p_range s v hs hv
  have hQ := hsv_q_range s v _ hs hv hmle
  have hT := hsv_t_range s v _ hs hv hmle
  refine ⟨hsv_to_rgb_eq_spec h s v hh hs hv, hR, ?_, ?_, ?_, ?_, ?_⟩
  · exact to_uint8_cast _ hR.1 (by omega)
  · exact to_uint8_cast _ hM.1 (by omega)
  · exact to_uint8_cast _ hP.1 (by omega)
  · exact to_uint8_cast _ hQ.1 (by omega)
  · exact to_uint8_cast _ hT.1 (by omega)

/-- C1, at h = 200, s = 180, v = 90. -/
theorem hsv_to_rgb_refines_spec_witness :
    (200 ≤ 255 ∧ 180 ≤ 255 ∧ 90 ≤ 255) ∧
    (hsv_to_rgb_spec ((200 : Nat) : Int) ((180 : Nat) : Int) ((90 : Nat) : Int)
        = some (((hsv_to_rgb 200 180 90).1 : Int), ((hsv_to_rgb 200 180 90).2.1 : Int),
            ((hsv_to_rgb 200 180 90).2.2 : Int))
      ∧ (0 ≤ hsv_region 200 ∧ hsv_region 200 ≤ 5)
      ∧ ((to_uint8 (hsv_region 200) : Nat) : Int) = hsv_region 200
      ∧ ((to_uint8 (hsv_remainder 200 (to_uint8 (hsv_region 200))) : Nat) : Int)
          = hsv_remainder 200 (to_uint8 (hsv_region 200))
      ∧ ((to_uint8 (hsv_p 180 90) : Nat) : Int) = hsv_p 180 90
      ∧ ((to_uint8 (hsv_q 180 90 (to_uint8 (hsv_remainder 200 (to_uint8 (hsv_region 200))))) : Nat)
            : Int)
          = hsv_q 180 90 (to_uint8 (hsv_remainder 200 (to_uint8 (hsv_region 200))))
      ∧ ((to_uint8 (hsv_t 180 90 (to_uint8 (hsv_remainder 200 (to_uint8 (hsv_region 200))))) : Nat)
            : Int)
          = hsv_t 180 90 (to_uint8 (hsv_remainder 200 (to_uint8 (hsv_region 200))))) :=
  ⟨by decide, hsv_to_rgb_refines_spec 200 180 90 (by decide) (by decide) (by decide)⟩

/-- C2: at full saturation and value, hue 0 gives exactly (255,0,0); hue 85
gives green 255 with red and blue at most 9; hue 170 gives blue 255 with red
and green at most 9; hues 86 and 172 give exactly (0,255,0) and (0,0,255). -/
theorem hsv_to_rgb_primaries :
    hsv_to_rgb 0 255 255 = (255, 0, 0)
      ∧ ((hsv_to_rgb 85 255 255).2.1 = 255 ∧ (hsv_to_rgb 85 255 255).1 ≤ 9
          ∧ (hsv_to_rgb 85 255 255).2.2 ≤ 9)
      ∧ ((hsv_to_rgb 170 255 255).2.2 = 255 ∧ (hsv_to_rgb 170 255 255).1 ≤ 9
          ∧ (hsv_to_rgb 170 255 255).2.1 ≤ 9)
      ∧ hsv_to_rgb 86 255 255 = (0, 255, 0)
      ∧ hsv_to_rgb 172 255 255 = (0, 0, 255) := by
  decide

/-! ## The output path -/

theorem set_pixels_loop_buffer (l : led_strip_t) (r g b : Nat) :
    (set_pixels_loop l r g b).buffer = frame_fill (r, g, b) := by
  rcases l with ⟨⟨buf, hbuf⟩, shown, calls⟩
  apply Subtype.ext
  match buf, hbuf with
  | [_, _, _, _, _], _ =>
    simp [set_pixels_loop, LED_STRIP_LENGTH, List.range, List.range.loop, led_strip_set_pixel,
      frame_set, frame_fill, List.replicate]

theorem set_pixels_loop_shown (l : led_strip_t) (r g b : Nat) :
    (set_pixels_loop l r g b).shown = l.shown := by
  simp [set_pixels_loop, LED_STRIP_LENGTH, List.range, List.range.loop, led_strip_set_pixel]

theorem set_pixels_loop_calls (l : led_strip_t) (r g b : Nat) :
    (set_pixels_loop l r g b).calls
      = l.calls ++ [led_call.set_pixel 0 r g b, led_call.set_pixel 1 r g b,
          led_call.set_pixel 2 r g b, led_call.set_pixel 3 r g b, led_call.set_pixel 4 r g b] := by
  simp [set_pixels_loop, LED_STRIP_LENGTH, List.range, List.range.loop, led_strip_set_pixel]

@[simp] theorem set_all_leds_system_state (d : device_t) (r g b : Nat) :
    (set_all_leds d r g b).system_state = d.system_state := rfl

@[simp] theorem set_all_leds_hue (d : device_t) (r g b : Nat) :
    (set_all_leds d r g b).hue = d.hue := rfl

theorem set_all_leds_shown (d : device_t) (r g b : Nat) :
    (set_all_leds d r g b).led_strip.shown = frame_fill (apply_brightness d.system_state r g b) := by
  simp [set_all_leds, led_strip_refresh, set_pixels_loop_buffer]

theorem scale_exact (c br : Nat) (hc : c ≤ 255) (hbr : br ≤ 100) :
    to_uint8 (((c : Int) * (br : Int)) / 100) = c * br / 100 := by
  have h1 : c * br ≤ 255 * 100 := Nat.mul_le_mul hc hbr
  have h2 : (((c * br / 100 : Nat) : Int)) = ((c : Int) * (br : Int)) / 100 := by
    push_cast
    rfl
  rw [← h2]
  apply to_uint8_nat
  omega

theorem apply_brightness_exact (st : system_state_t) (r g b : Nat)
    (hr : r ≤ 255) (hg : g ≤ 255) (hb : b ≤ 255) (hbr : st.brightness ≤ 100) :
    apply_brightness st r g b
      = (r * st.brightness / 100, g * st.brightness / 100, b * st.brightness / 100) := by
  simp [apply_brightness, scale_exact _ _ hr hbr, scale_exact _ _ hg hbr,
    scale_exact _ _ hb hbr]

/-! ## What each function does to `system_state` -/

@[simp] theorem turn_on_light_system_state (d : device_t) :
    (turn_on_light d).system_state = { d.system_state with is_light_on := true } := rfl

@[simp] theorem turn_off_light_system_state (d : device_t) :
    (turn_off_light d).system_state = { d.system_state with is_light_on := false } := rfl

@[simp] theorem set_rgb_color_system_state (d : device_t) (r g b : Nat) :
    (set_rgb_color d r g b).system_state
      = { d.system_state with red := r, green := g, blue := b } := by
  cases hp : d.system_state.is_light_on <;> simp [set_rgb_color, hp]

@[simp] theorem set_brightness_system_state (d : device_t) (x : Nat) :
    (set_brightness d x).system_state
      = { d.system_state with brightness := if x > 100 then 100 else x } := by
  cases hp : d.system_state.is_light_on <;> simp [set_brightness, hp]

theorem run_command_on (d : device_t) :
    run_command command.on d
      = turn_on_light { d with system_state := { d.system_state with effect := EFFECT_NONE } } := by
  simp [run_command, control_post_handler, command.body, body_action, control_dispatch]

theorem run_command_off (d : device_t) : run_command command.off d = turn_off_light d := by
  simp [run_command, control_post_handler, command.body, body_action, control_dispatch]

theorem run_command_toggle_mode (d : device_t) :
    run_command command.toggle_mode d
      = { d with system_state :=
            { d.system_state with is_auto_mode := !d.system_state.is_auto_mode } } := by
  simp [run_command, control_post_handler, command.body, body_action, control_dispatch]

theorem run_command_set_color (d : device_t) (r g b : Int) :
    run_command (command.set_color r g b) d
      = set_rgb_color { d with system_state := { d.system_state with effect := EFFECT_NONE } }
          (to_uint8 r) (to_uint8 g) (to_uint8 b) := by
  simp [run_command, control_post_handler, command.body, body_action, control_dispatch]

theorem run_command_set_brightness (d : device_t) (pct : Int) :
    run_command (command.set_brightness pct) d = set_brightness d (to_uint8 pct) := by
  simp [run_command, control_post_handler, command.body, body_action, control_dispatch]

theorem run_command_set_effect (d : device_t) (id : Int) :
    run_command (command.set_effect id) d
      = if to_effect id ≠ EFFECT_NONE ∧ d.system_state.is_light_on = false then
          turn_on_light { d with system_state := { d.system_state with effect := to_effect id } }
        else { d with system_state := { d.system_state with effect := to_effect id } } := by
  simp [run_command, control_post_handler, command.body, body_action, control_dispatch]

/-! ## Invariants of the interleaving -/

theorem control_dispatch_brightness (root : json_body) (d : device_t)
    (h : d.system_state.brightness ≤ 100) :
    (control_dispatch root d).system_state.brightness ≤ 100 := by
  unfold control_dispatch
  repeat' split
  all_goals try simp only [turn_on_light_system_state, turn_off_light_system_state,
    set_rgb_color_system_state, set_brightness_system_state]
  all_goals repeat' split
  all_goals first | exact h | omega

theorem sensor_monitor_tick_brightness (light : Int) (motion : Bool) (d : device_t) :
    (sensor_monitor_tick light motion d).system_state.brightness = d.system_state.brightness := by
  unfold sensor_monitor_tick
  simp only
  repeat' split
  all_goals rfl

theorem light_effect_tick_system_state (tb : Nat) (d : device_t) :
    (light_effect_tick tb d).1.system_state = d.system_state := by
  unfold light_effect_tick
  simp only
  repeat' split
  all_goals rfl

theorem step_brightness (d d1 : device_t) (hs : step d d1)
    (h : d.system_state.brightness ≤ 100) : d1.system_state.brightness ≤ 100 := by
  cases hs with
  | control req d =>
    cases req with
    | recv_failed => exact h
    | parse_failed => exact h
    | parsed root => exact control_dispatch_brightness root d h
  | sensor light motion d =>
    rw [sensor_monitor_tick_brightness]
    exact h
  | effect tb d =>
    rw [light_effect_tick_system_state]
    exact h

theorem reachable_brightness (d : device_t) (h : reachable d) :
    d.system_state.brightness ≤ 100 := by
  induction h with
  | init => decide
  | next d d1 _ hs ih => exact step_brightness d d1 hs ih

/-! ## Brightness -/

/-- C3: brightness is in [0,100] in every state reachable from the initial
state by control requests, sensor ticks and effect ticks; and storing again
the value that `set_brightness` has just stored stores the same value, for
the function and for the command. -/
theorem brightness_always_in_range :
    (∀ d : device_t, reachable d →
        0 ≤ d.system_state.brightness ∧ d.system_state.brightness ≤ 100)
      ∧ (∀ (d : device_t) (x : Nat),
          (set_brightness (set_brightness d x)
              (set_brightness d x).system_state.brightness).system_state.brightness
            = (set_brightness d x).system_state.brightness)
      ∧ (∀ (d : device_t) (pct : Int),
          (run_command
              (command.set_brightness
                ((run_command (command.set_brightness pct) d).system_state.brightness : Int))
              (run_command (command.set_brightness pct) d)).system_state.brightness
            = (run_command (command.set_brightness pct) d).system_state.brightness) := by
  refine ⟨fun d h => ⟨Nat.zero_le _, reachable_brightness d h⟩, ?_, ?_⟩
  · intro d x
    simp only [set_brightness_system_state]
    split <;> simp_all
  · intro d pct
    simp only [run_command_set_brightness, set_brightness_system_state]
    have hlt := to_uint8_lt pct
    by_cases h : to_uint8 pct > 100
    · simp only [if_pos h]
      rw [show to_uint8 ((100 : Nat) : Int) = 100 from by decide]
      simp
    · simp only [if_neg h]
      rw [to_uint8_nat _ hlt]
      simp only [if_neg h]

/-- C3, at the state reached by the request set_brightness 300. -/
theorem brightness_always_in_range_witness :
    reachable (control_post_handler
        (control_request.parsed (command.set_brightness 300).body) device_init).1
      ∧ (0 ≤ (control_post_handler
            (control_request.parsed (command.set_brightness 300).body)
            device_init).1.system_state.brightness
          ∧ (control_post_handler
            (control_request.parsed (command.set_brightness 300).body)
            device_init).1.system_state.brightness ≤ 100) :=
  ⟨reachable.next _ _ reachable.init (step.control _ _),
    brightness_always_in_range.1 _ (reachable.next _ _ reachable.init (step.control _ _))⟩

/-- What a set_brightness command stores: the 8-bit reduction of its
argument, limited to 100; the rest of `system_state` and `hue` are kept. -/
theorem set_brightness_command_stores (d : device_t) (pct : Int) :
    (run_command (command.set_brightness pct) d).system_state
        = { d.system_state with
            brightness := if to_uint8 pct > 100 then 100 else to_uint8 pct }
      ∧ (run_command (command.set_brightness pct) d).hue = d.hue := by
  rw [run_command_set_brightness]
  refine ⟨set_brightness_system_state d _, ?_⟩
  cases hp : d.system_state.is_light_on <;> simp [set_brightness, hp]

/-- For an argument in [0,255] the stored brightness is the clamp. -/
theorem set_brightness_command_in_byte_range (d : device_t) (pct : Int)
    (h0 : 0 ≤ pct) (h1 : pct ≤ 255) :
    ((run_command (command.set_brightness pct) d).system_state.brightness : Int)
      = clamp pct 0 100 := by
  rw [(set_brightness_command_stores d pct).1]
  have hc := to_uint8_cast pct h0 (by omega)
  simp only [clamp]
  by_cases h : to_uint8 pct > 100
  · simp only [if_pos h]
    rw [if_neg (by omega), if_pos (by omega)]
    rfl
  · simp only [if_neg h]
    rw [if_neg (by omega), if_neg (by omega)]
    exact hc

/-- C4: the command set_brightness 300, served in the initial state, stores
44, where clamp(300, 0, 100) is 100; the command set_brightness -1 stores
100, where clamp(-1, 0, 100) is 0. -/
theorem set_brightness_outside_byte_range :
    (run_command (command.set_brightness 300) device_init).system_state.brightness = 44
      ∧ clamp 300 0 100 = 100
      ∧ (run_command (command.set_brightness (-1)) device_init).system_state.brightness = 100
      ∧ clamp (-1) 0 100 = 0 := by
  decide

/-! ## Control commands -/

/-- C5: after set_color(r, g, b) with r, g, b in [0,255] the stored color is
(r, g, b) and the effect is None, while mode, power, brightness and effect
speed are kept; the snapshot of GET /status taken next reports red = r,
green = g, blue = b and effect = 0; and when power is on, the frame shown has
every pixel at the new color scaled by `apply_brightness`, which for a
brightness in [0,100] is (r*brightness/100, g*brightness/100,
b*brightness/100). -/
theorem set_color_then_status (d : device_t) (r g b : Nat)
    (hr : r ≤ 255) (hg : g ≤ 255) (hb : b ≤ 255) :
    (run_command (command.set_color r g b) d).system_state
        = { d.system_state with red := r, green := g, blue := b, effect := EFFECT_NONE }
      ∧ (status_get_handler (run_command (command.set_color r g b) d)).red = r
      ∧ (status_get_handler (run_command (command.set_color r g b) d)).green = g
      ∧ (status_get_handler (run_command (command.set_color r g b) d)).blue = b
      ∧ (status_get_handler (run_command (command.set_color r g b) d)).effect = 0
      ∧ (d.system_state.is_light_on = true →
          (run_command (command.set_color r g b) d).led_strip.shown
            = frame_fill (apply_brightness d.system_state r g b))
      ∧ (d.system_state.is_light_on = true → d.system_state.brightness ≤ 100 →
          (run_command (command.set_color r g b) d).led_strip.shown
            = frame_fill (r * d.system_state.brightness / 100,
                g * d.system_state.brightness / 100, b * d.system_state.brightness / 100)) := by
  have er := to_uint8_nat r (by omega)
  have eg := to_uint8_nat g (by omega)
  have eb := to_uint8_nat b (by omega)
  have hst : (run_command (command.set_color r g b) d).system_state
      = { d.system_state with red := r, green := g, blue := b, effect := EFFECT_NONE } := by
    rw [run_command_set_color, set_rgb_color_system_state, er, eg, eb]
  have hshown : d.system_state.is_light_on = true →
      (run_command (command.set_color r g b) d).led_strip.shown
        = frame_fill (apply_brightness d.system_state r g b) := by
    intro hp
    rw [run_command_set_color, er, eg, eb]
    simp only [set_rgb_color, hp, if_true]
    rw [set_all_leds_shown]
    rfl
  refine ⟨hst, ?_, ?_, ?_, ?_, hshown, ?_⟩
  · simp [status_get_handler, hst]
  · simp [status_get_handler, hst]
  · simp [status_get_handler, hst]
  · simp [status_get_handler, hst, EFFECT_NONE]
  · intro hp hbr
    rw [hshown hp, apply_brightness_exact d.system_state r g b hr hg hb hbr]

/-- C5, at set_color(10, 20, 30) on a device with power on at brightness 50. -/
theorem set_color_then_status_witness :
    ((10 ≤ 255 ∧ 20 ≤ 255 ∧ 30 ≤ 255) ∧ device_lit.system_state.is_light_on = true
      ∧ device_lit.system_state.brightness ≤ 100) ∧
    ((run_command (command.set_color (10 : Nat) (20 : Nat) (30 : Nat)) device_lit).system_state
        = { device_lit.system_state with
            red := 10, green := 20, blue := 30, effect := EFFECT_NONE }
      ∧ (status_get_handler
          (run_command (command.set_color (10 : Nat) (20 : Nat) (30 : Nat)) device_lit)).red = 10
      ∧ (status_get_handler
          (run_command (command.set_color (10 : Nat) (20 : Nat) (30 : Nat)) device_lit)).green = 20
      ∧ (status_get_handler
          (run_command (command.set_color (10 : Nat) (20 : Nat) (30 : Nat)) device_lit)).blue = 30
      ∧ (status_get_handler
          (run_command (command.set_color (10 : Nat) (20 : Nat) (30 : Nat)) device_lit)).effect = 0
      ∧ (device_lit.system_state.is_light_on = true →
          (run_command (command.set_color (10 : Nat) (20 : Nat) (30 : Nat)) device_lit).led_strip.shown
            = frame_fill (apply_brightness device_lit.system_state 10 20 30))
      ∧ (device_lit.system_state.is_light_on = true →
          device_lit.system_state.brightness ≤ 100 →
          (run_command (command.set_color (10 : Nat) (20 : Nat) (30 : Nat)) device_lit).led_strip.shown
            = frame_fill (10 * device_lit.system_state.brightness / 100,
                20 * device_lit.system_state.brightness / 100,
                30 * device_lit.system_state.brightness / 100))) :=
  ⟨by decide, set_color_then_status device_lit 10 20 30 (by decide) (by decide) (by decide)⟩

/-- C6: after set_effect(id), for an id in the range of `light_effect_t`, the
stored effect is id; if id is not None and power was off, power is on
afterwards; if id is None or power was on, power is as before; mode, color
and brightness are kept. -/
theorem set_effect_turns_on (d : device_t) (id : Nat) (hid : id < 4294967296) :
    (run_command (command.set_effect id) d).system_state.effect = id
      ∧ (id ≠ EFFECT_NONE → d.system_state.is_light_on = false →
          (run_command (command.set_effect id) d).system_state.is_light_on = true)
      ∧ (id = EFFECT_NONE ∨ d.system_state.is_light_on = true →
          (run_command (command.set_effect id) d).system_state.is_light_on
            = d.system_state.is_light_on)
      ∧ (run_command (command.set_effect id) d).system_state.is_auto_mode
          = d.system_state.is_auto_mode
      ∧ (run_command (command.set_effect id) d).system_state.red = d.system_state.red
      ∧ (run_command (command.set_effect id) d).system_state.green = d.system_state.green
      ∧ (run_command (command.set_effect id) d).system_state.blue = d.system_state.blue
      ∧ (run_command (command.set_effect id) d).system_state.brightness
          = d.system_state.brightness := by
  have he : to_effect (id : Int) = id := by
    unfold to_effect
    omega
  rw [run_command_set_effect, he]
  by_cases hc : id ≠ EFFECT_NONE ∧ d.system_state.is_light_on = false
  · rw [if_pos hc]
    refine ⟨rfl, fun _ _ => rfl, ?_, rfl, rfl, rfl, rfl, rfl⟩
    intro h
    rcases h with h | h
    · exact absurd h hc.1
    · rw [hc.2] at h
      exact absurd h (by decide)
  · rw [if_neg hc]
    refine ⟨rfl, ?_, fun _ => rfl, rfl, rfl, rfl, rfl, rfl⟩
    intro h1 h2
    exact absurd ⟨h1, h2⟩ hc

/-- C6, at set_effect(3) in the initial state, where power is off. -/
theorem set_effect_turns_on_witness :
    (3 < 4294967296 ∧ 3 ≠ EFFECT_NONE ∧ device_init.system_state.is_light_on = false) ∧
    ((run_command (command.set_effect (3 : Nat)) device_init).system_state.effect = 3
      ∧ (3 ≠ EFFECT_NONE → device_init.system_state.is_light_on = false →
          (run_command (command.set_effect (3 : Nat)) device_init).system_state.is_light_on = true)
      ∧ (3 = EFFECT_NONE ∨ device_init.system_state.is_light_on = true →
          (run_command (command.set_effect (3 : Nat)) device_init).system_state.is_light_on
            = device_init.system_state.is_light_on)
      ∧ (run_command (command.set_effect (3 : Nat)) device_init).system_state.is_auto_mode
          = device_init.system_state.is_auto_mode
      ∧ (run_command (command.set_effect (3 : Nat)) device_init).system_state.red
          = device_init.system_state.red
      ∧ (run_command (command.set_effect (3 : Nat)) device_init).system_state.green
          = device_init.system_state.green
      ∧ (run_command (command.set_effect (3 : Nat)) device_init).system_state.blue
          = device_init.system_state.blue
      ∧ (run_command (command.set_effect (3 : Nat)) device_init).system_state.brightness
          = device_init.system_state.brightness) :=
  ⟨by decide, set_effect_turns_on device_init 3 (by decide)⟩

/-- C7: whatever the mode, the command on leaves power on and the effect
None, keeps mode, color, brightness and effect speed, and shows at once a
frame in which each of the 5 pixels is (red*brightness/100,
green*brightness/100, blue*brightness/100), the state being one of the data
model: 8-bit color components and a brightness in [0,100]. -/
theorem on_renders_current_color (d : device_t)
    (hr : d.system_state.red ≤ 255) (hg : d.system_state.green ≤ 255)
    (hb : d.system_state.blue ≤ 255) (hbr : d.system_state.brightness ≤ 100) :
    (run_command command.on d).system_state
        = { d.system_state with is_light_on := true, effect := EFFECT_NONE }
      ∧ (run_command command.on d).led_strip.shown.val
          = List.replicate 5
              (d.system_state.red * d.system_state.brightness / 100,
                d.system_state.green * d.system_state.brightness / 100,
                d.system_state.blue * d.system_state.brightness / 100)
      ∧ (run_command command.on d).led_strip.calls
          = d.led_strip.calls
            ++ (List.range 5).map (fun i =>
                led_call.set_pixel i (d.system_state.red * d.system_state.brightness / 100)
                  (d.system_state.green * d.system_state.brightness / 100)
                  (d.system_state.blue * d.system_state.brightness / 100))
            ++ [led_call.refresh] := by
  rw [run_command_on]
  refine ⟨rfl, ?_, ?_⟩
  · simp only [turn_on_light]
    rw [set_all_leds_shown]
    have := apply_brightness_exact d.system_state d.system_state.red d.system_state.green
      d.system_state.blue hr hg hb hbr
    simp only [apply_brightness] at this ⊢
    rw [this]
    rfl
  · simp only [turn_on_light, set_all_leds, led_strip_refresh, apply_brightness,
      set_pixels_loop_calls]
    rw [scale_exact _ _ hr hbr, scale_exact _ _ hg hbr, scale_exact _ _ hb hbr]
    simp [List.range, List.range.loop]

/-- C7, in the initial state (Auto mode, color white, brightness 100). -/
theorem on_renders_current_color_witness :
    (device_init.system_state.red ≤ 255 ∧ device_init.system_state.green ≤ 255
      ∧ device_init.system_state.blue ≤ 255 ∧ device_init.system_state.brightness ≤ 100) ∧
    ((run_command command.on device_init).system_state
        = { device_init.system_state with is_light_on := true, effect := EFFECT_NONE }
      ∧ (run_command command.on device_init).led_strip.shown.val
          = List.replicate 5
              (device_init.system_state.red * device_init.system_state.brightness / 100,
                device_init.system_state.green * device_init.system_state.brightness / 100,
                device_init.system_state.blue * device_init.system_state.brightness / 100)
      ∧ (run_command command.on device_init).led_strip.calls
          = device_init.led_strip.calls
            ++ (List.range 5).map (fun i =>
                led_call.set_pixel i
                  (device_init.system_state.red * device_init.system_state.brightness / 100)
                  (device_init.system_state.green * device_init.system_state.brightness / 100)
                  (device_init.system_state.blue * device_init.system_state.brightness / 100))
            ++ [led_call.refresh]) :=
  ⟨by decide, on_renders_current_color device_init (by decide) (by decide) (by decide)
    (by decide)⟩

/-- C8: the command off leaves power off and the output cleared (every pixel
off, by one call of the driver's clear), and changes no other field of the
device state: mode, sensor values, color, brightness, effect and effect speed
are as before, and so is the hue of the effect task. -/
theorem off_changes_power_only (d : device_t) :
    (run_command command.off d).system_state = { d.system_state with is_light_on := false }
      ∧ (run_command command.off d).led_strip.shown = frame_off
      ∧ (run_command command.off d).led_strip.buffer = frame_off
      ∧ (run_command command.off d).led_strip.calls = d.led_strip.calls ++ [led_call.clear]
      ∧ (run_command command.off d).hue = d.hue := by
  rw [run_command_off]
  exact ⟨rfl, rfl, rfl, rfl, rfl⟩

/-- C9, as stated, fails: with the Rainbow effect set and power on, the
command off leaves the effect Rainbow, not None. -/
theorem off_keeps_effect :
    device_rainbow.system_state.effect = EFFECT_RAINBOW
      ∧ (run_command command.off device_rainbow).system_state.effect = EFFECT_RAINBOW
      ∧ (run_command command.off device_rainbow).system_state.effect ≠ EFFECT_NONE := by
  decide

/-- C9, amended: after the commands set_color (with r, g, b present) and on
the stored effect is None; after the command off the stored effect is the one
stored before. -/
theorem effect_after_color_on_off (d : device_t) (r g b : Int) :
    (run_command (command.set_color r g b) d).system_state.effect = EFFECT_NONE
      ∧ (run_command command.on d).system_state.effect = EFFECT_NONE
      ∧ (run_command command.off d).system_state.effect = d.system_state.effect := by
  rw [run_command_set_color, run_command_on, run_command_off]
  refine ⟨?_, rfl, rfl⟩
  rw [set_rgb_color_system_state]

/-- C10: the command toggle_mode negates the mode, changes no other field of
the state, makes no driver call and shows no frame; applied twice it gives
back the device it started from. -/
theorem toggle_mode_involutive (d : device_t) :
    (run_command command.toggle_mode d).system_state
        = { d.system_state with is_auto_mode := !d.system_state.is_auto_mode }
      ∧ (run_command command.toggle_mode d).led_strip = d.led_strip
      ∧ (run_command command.toggle_mode d).hue = d.hue
      ∧ run_command command.toggle_mode (run_command command.toggle_mode d) = d := by
  rw [run_command_toggle_mode]
  refine ⟨rfl, rfl, rfl, ?_⟩
  rw [run_command_toggle_mode]
  simp

/-! ## Requests that are not a complete command -/

/-- C11: a failed receive and an undecodable body are answered with a 500
error; a decodable body whose action is missing, not a string or none of the
six names, a set_color without one of r, g, b, a set_brightness without
brightness and a set_effect without effect are answered with the body
"status ok"; in every one of these cases the device (state, strip buffer,
shown frame, driver calls, hue) is exactly as before. -/
theorem incomplete_request_ignored (d : device_t) (root : json_body)
    (h : root.action = none ∨ root.action = some none ∨
      ∃ cmd, root.action = some (some cmd) ∧
        ((cmd ≠ "on" ∧ cmd ≠ "off" ∧ cmd ≠ "toggle_mode" ∧ cmd ≠ "set_color"
            ∧ cmd ≠ "set_brightness" ∧ cmd ≠ "set_effect")
          ∨ (cmd = "set_color" ∧ (root.r = none ∨ root.g = none ∨ root.b = none))
          ∨ (cmd = "set_brightness" ∧ root.brightness = none)
          ∨ (cmd = "set_effect" ∧ root.effect = none))) :
    control_post_handler control_request.recv_failed d = (d, http_response.send_500)
      ∧ control_post_handler control_request.parse_failed d = (d, http_response.send_500)
      ∧ control_post_handler (control_request.parsed root) d
          = (d, http_response.sendstr "\x7b\"status\":\"ok\"\x7d") := by
  refine ⟨rfl, rfl, ?_⟩
  have key : control_dispatch root d = d := by
    rcases h with h | h | ⟨cmd, hc, h⟩
    · simp [control_dispatch, h]
    · simp [control_dispatch, h]
    · rcases h with ⟨h1, h2, h3, h4, h5, h6⟩ | ⟨h1, h2⟩ | ⟨h1, h2⟩ | ⟨h1, h2⟩
      · simp [control_dispatch, hc, h1, h2, h3, h4, h5, h6]
      · subst h1
        rcases h2 with h2 | h2 | h2
        · simp [control_dispatch, hc, h2]
        · simp only [control_dispatch, hc]
          cases hr : root.r <;> simp [h2]
        · simp only [control_dispatch, hc]
          cases hr : root.r <;> cases hg : root.g <;> simp [h2]
      · subst h1
        simp [control_dispatch, hc, h2]
      · subst h1
        simp [control_dispatch, hc, h2]
  simp [control_post_handler, key]

/-- C11, at a set_color request that carries r and b but no g, served on a
device with power on. -/
theorem incomplete_request_ignored_witness :
    (({ body_action "set_color" with r := some 1, b := some 3 } : json_body).action = none
      ∨ ({ body_action "set_color" with r := some 1, b := some 3 } : json_body).action = some none
      ∨ ∃ cmd, ({ body_action "set_color" with r := some 1, b := some 3 } : json_body).action
            = some (some cmd) ∧
        ((cmd ≠ "on" ∧ cmd ≠ "off" ∧ cmd ≠ "toggle_mode" ∧ cmd ≠ "set_color"
            ∧ cmd ≠ "set_brightness" ∧ cmd ≠ "set_effect")
          ∨ (cmd = "set_color"
              ∧ (({ body_action "set_color" with r := some 1, b := some 3 } : json_body).r = none
                ∨ ({ body_action "set_color" with r := some 1, b := some 3 } : json_body).g = none
                ∨ ({ body_action "set_color" with r := some 1, b := some 3 } : json_body).b = none))
          ∨ (cmd = "set_brightness"
              ∧ ({ body_action "set_color" with r := some 1, b := some 3 } : json_body).brightness
                  = none)
          ∨ (cmd = "set_effect"
              ∧ ({ body_action "set_color" with r := some 1, b := some 3 } : json_body).effect
                  = none)))
      ∧ (control_post_handler control_request.recv_failed device_lit
            = (device_lit, http_response.send_500)
        ∧ control_post_handler control_request.parse_failed device_lit
            = (device_lit, http_response.send_500)
        ∧ control_post_handler
            (control_request.parsed { body_action "set_color" with r := some 1, b := some 3 })
            device_lit
          = (device_lit, http_response.sendstr "\x7b\"status\":\"ok\"\x7d")) :=
  ⟨Or.inr (Or.inr ⟨"set_color", rfl, Or.inr (Or.inl ⟨rfl, Or.inr (Or.inl rfl)⟩)⟩),
    incomplete_request_ignored device_lit _
      (Or.inr (Or.inr ⟨"set_color", rfl, Or.inr (Or.inl ⟨rfl, Or.inr (Or.inl rfl)⟩)⟩))⟩

/-! ## The arbiter -/

theorem sensor_monitor_tick_manual (light : Int) (motion : Bool) (d : device_t)
    (h : d.system_state.is_auto_mode = false) :
    sensor_monitor_tick light motion d
      = { d with system_state :=
            { d.system_state with light_value := light, motion_detected := motion } } := by
  simp [sensor_monitor_tick, h]

theorem sensor_monitor_tick_power (light : Int) (motion : Bool) (d : device_t)
    (h : d.system_state.is_auto_mode = true) :
    (sensor_monitor_tick light motion d).system_state.is_light_on
      = (motion && decide (light > 3000)) := by
  cases hp : d.system_state.is_light_on <;> cases motion <;>
    by_cases hl : light > 3000 <;>
    simp [sensor_monitor_tick, h, hp, hl, LIGHT_THRESHOLD]

theorem sensor_monitor_tick_effect (light : Int) (motion : Bool) (d : device_t)
    (h : d.system_state.is_auto_mode = true) :
    (sensor_monitor_tick light motion d).system_state.effect
      = if (motion && decide (light > 3000)) = true ∧ d.system_state.is_light_on = false
          then EFFECT_NONE else d.system_state.effect := by
  cases hp : d.system_state.is_light_on <;> cases motion <;>
    by_cases hl : light > 3000 <;>
    simp [sensor_monitor_tick, h, hp, hl, LIGHT_THRESHOLD]

/-- C14, as stated, fails: in Auto mode with power on and the Rainbow effect
stored, a tick without motion turns power off and leaves the effect Rainbow. -/
theorem arbiter_turn_off_retains_effect :
    device_rainbow.system_state.is_auto_mode = true
      ∧ device_rainbow.system_state.is_light_on = true
      ∧ (sensor_monitor_tick 3500 false device_rainbow).system_state.is_light_on = false
      ∧ (sensor_monitor_tick 3500 false device_rainbow).system_state.effect = EFFECT_RAINBOW
      ∧ (sensor_monitor_tick 3500 false device_rainbow).system_state.effect ≠ EFFECT_NONE := by
  decide

/-- C14, amended: when an arbiter tick in Auto mode turns power on, the
stored effect is None after that tick; when it turns power off, the stored
effect is the one stored before the tick. -/
theorem arbiter_effect_after_power_change (d : device_t) (light : Int) (motion : Bool)
    (h : d.system_state.is_auto_mode = true) :
    (d.system_state.is_light_on = false →
        (sensor_monitor_tick light motion d).system_state.is_light_on = true →
        (sensor_monitor_tick light motion d).system_state.effect = EFFECT_NONE)
      ∧ (d.system_state.is_light_on = true →
        (sensor_monitor_tick light motion d).system_state.is_light_on = false →
        (sensor_monitor_tick light motion d).system_state.effect = d.system_state.effect) := by
  rw [sensor_monitor_tick_power light motion d h, sensor_monitor_tick_effect light motion d h]
  constructor
  · intro hp hon
    rw [if_pos ⟨hon, hp⟩]
  · intro hp _
    rw [if_neg]
    rintro ⟨_, hoff⟩
    rw [hp] at hoff
    exact absurd hoff (by decide)

/-- C14 amended, on the device with the Rainbow effect stored and power off,
which a dark reading with motion turns on. -/
theorem arbiter_effect_after_power_change_witness :
    device_rainbow_off.system_state.is_auto_mode = true
      ∧ device_rainbow_off.system_state.is_light_on = false
      ∧ (sensor_monitor_tick 3500 true device_rainbow_off).system_state.is_light_on = true
      ∧ ((device_rainbow_off.system_state.is_light_on = false →
          (sensor_monitor_tick 3500 true device_rainbow_off).system_state.is_light_on = true →
          (sensor_monitor_tick 3500 true device_rainbow_off).system_state.effect = EFFECT_NONE)
        ∧ (device_rainbow_off.system_state.is_light_on = true →
          (sensor_monitor_tick 3500 true device_rainbow_off).system_state.is_light_on = false →
          (sensor_monitor_tick 3500 true device_rainbow_off).system_state.effect
            = device_rainbow_off.system_state.effect)) :=
  ⟨by decide, by decide, by decide,
    arbiter_effect_after_power_change device_rainbow_off 3500 true (by decide)⟩

/-! ## The effect engine -/

theorem light_effect_tick_fade (tb : Nat) (d : device_t)
    (hp : d.system_state.is_light_on = true) (he : d.system_state.effect = EFFECT_FADE) :
    light_effect_tick tb d = (d, none) := by
  simp [light_effect_tick, hp, he, EFFECT_FADE, EFFECT_NONE, EFFECT_RAINBOW,
    EFFECT_RAINBOW_CYCLE, EFFECT_BREATH]

theorem light_effect_tick_breath (tb : Nat) (d : device_t)
    (hp : d.system_state.is_light_on = true) (he : d.system_state.effect = EFFECT_BREATH) :
    light_effect_tick tb d
      = ({ d with led_strip := led_strip_refresh (set_pixels_loop d.led_strip
              (to_uint8 (((d.system_state.red : Int) * (tb : Int)) / 100))
              (to_uint8 (((d.system_state.green : Int) * (tb : Int)) / 100))
              (to_uint8 (((d.system_state.blue : Int) * (tb : Int)) / 100))) },
          some 50) := by
  simp [light_effect_tick, hp, he, EFFECT_FADE, EFFECT_NONE, EFFECT_RAINBOW,
    EFFECT_RAINBOW_CYCLE, EFFECT_BREATH]

theorem light_effect_tick_rainbow (tb : Nat) (d : device_t)
    (hp : d.system_state.is_light_on = true) (he : d.system_state.effect = EFFECT_RAINBOW) :
    light_effect_tick tb d
      = ({ set_all_leds d (hsv_to_rgb d.hue 255 255).1 (hsv_to_rgb d.hue 255 255).2.1
              (hsv_to_rgb d.hue 255 255).2.2 with hue := (d.hue + 1) % 256 },
          some (100 - (d.system_state.effect_speed : Int))) := by
  simp [light_effect_tick, hp, he, EFFECT_FADE, EFFECT_NONE, EFFECT_RAINBOW,
    EFFECT_RAINBOW_CYCLE, EFFECT_BREATH]

theorem light_effect_tick_rainbow_cycle (tb : Nat) (d : device_t)
    (hp : d.system_state.is_light_on = true)
    (he : d.system_state.effect = EFFECT_RAINBOW_CYCLE) :
    light_effect_tick tb d
      = ({ d with
            led_strip := led_strip_refresh
              (rainbow_cycle_loop d.system_state d.hue 0 LED_STRIP_LENGTH d.led_strip)
            hue := (d.hue + 1) % 256 },
          some (100 - (d.system_state.effect_speed : Int))) := by
  simp [light_effect_tick, hp, he, EFFECT_FADE, EFFECT_NONE, EFFECT_RAINBOW,
    EFFECT_RAINBOW_CYCLE, EFFECT_BREATH]

/-- C15: with power on and the Fade effect stored (the state the command
set_effect 1 leaves), an iteration of the effect loop makes no driver call,
changes nothing and reaches no delay, whatever the value computed from the
phase; with the Breath effect stored the iteration shows one frame on all
pixels and ends with the 50 ms delay. -/
theorem fade_tick_no_frame_no_delay :
    device_fade.system_state.is_light_on = true
      ∧ device_fade.system_state.effect = EFFECT_FADE
      ∧ (∀ tb : Nat, light_effect_tick tb device_fade = (device_fade, none))
      ∧ (∀ tb : Nat, (light_effect_tick tb device_breath).2 = some 50
          ∧ (light_effect_tick tb device_breath).1.led_strip.shown
              = frame_fill (to_uint8 ((255 : Int) * (tb : Int) / 100),
                  to_uint8 ((255 : Int) * (tb : Int) / 100),
                  to_uint8 ((255 : Int) * (tb : Int) / 100))) := by
  refine ⟨by decide, by decide, fun tb => ?_, fun tb => ?_⟩
  · exact light_effect_tick_fade tb device_fade (by decide) (by decide)
  · rw [light_effect_tick_breath tb device_breath (by decide) (by decide)]
    refine ⟨rfl, ?_⟩
    simp only [led_strip_refresh, set_pixels_loop_buffer]
    rfl

/-! ## Brightness scaling -/

theorem hsv_to_rgb_le (h s v : Nat) (hv : v ≤ 255) :
    (hsv_to_rgb h s v).1 ≤ 255 ∧ (hsv_to_rgb h s v).2.1 ≤ 255 ∧ (hsv_to_rgb h s v).2.2 ≤ 255 := by
  have hu : ∀ x : Int, to_uint8 x ≤ 255 := fun x => by
    have := to_uint8_lt x
    omega
  unfold hsv_to_rgb
  split
  · exact ⟨hv, hv, hv⟩
  · simp only
    split <;> exact ⟨by first | exact hv | exact hu _, by first | exact hv | exact hu _,
      by first | exact hv | exact hu _⟩

theorem apply_brightness_eq_scale_spec (st : system_state_t) (c : pixel)
    (h1 : c.1 ≤ 255) (h2 : c.2.1 ≤ 255) (h3 : c.2.2 ≤ 255) (hbr : st.brightness ≤ 100) :
    apply_brightness st c.1 c.2.1 c.2.2 = scale_spec st.brightness c := by
  rw [apply_brightness_exact st _ _ _ h1 h2 h3 hbr]
  rfl

theorem rainbow_cycle_loop_buffer (st : system_state_t) (hue : Nat) (l : led_strip_t) :
    (rainbow_cycle_loop st hue 0 LED_STRIP_LENGTH l).buffer.val
      = (List.range 5).map (fun i =>
          apply_brightness st (hsv_to_rgb (pixel_hue hue i) 255 255).1
            (hsv_to_rgb (pixel_hue hue i) 255 255).2.1
            (hsv_to_rgb (pixel_hue hue i) 255 255).2.2) := by
  rcases l with ⟨⟨buf, hbuf⟩, shown, calls⟩
  match buf, hbuf with
  | [_, _, _, _, _], _ =>
    simp [rainbow_cycle_loop, LED_STRIP_LENGTH, List.range, List.range.loop, led_strip_set_pixel,
      frame_set, pixel_hue]

/-- C16: for components in [0,255] and a brightness in [0,100],
`apply_brightness` gives on each component `c * brightness / 100` with
truncating division; the value stored into the `uint8_t` is already below
256, it never exceeds the component, it is the component at brightness 100
and 0 at brightness 0; and the frame of `set_all_leds`, the frame of a
Rainbow tick and each pixel of a RainbowCycle tick carry their color scaled
in this way. -/
theorem brightness_scaling (d : device_t) (r g b : Nat)
    (hr : r ≤ 255) (hg : g ≤ 255) (hb : b ≤ 255) (hbr : d.system_state.brightness ≤ 100) :
    apply_brightness d.system_state r g b = scale_spec d.system_state.brightness (r, g, b)
      ∧ (0 ≤ (r : Int) * (d.system_state.brightness : Int) / 100
          ∧ (r : Int) * (d.system_state.brightness : Int) / 100 < 256
          ∧ 0 ≤ (g : Int) * (d.system_state.brightness : Int) / 100
          ∧ (g : Int) * (d.system_state.brightness : Int) / 100 < 256
          ∧ 0 ≤ (b : Int) * (d.system_state.brightness : Int) / 100
          ∧ (b : Int) * (d.system_state.brightness : Int) / 100 < 256)
      ∧ ((apply_brightness d.system_state r g b).1 ≤ r
          ∧ (apply_brightness d.system_state r g b).2.1 ≤ g
          ∧ (apply_brightness d.system_state r g b).2.2 ≤ b)
      ∧ (d.system_state.brightness = 100 → apply_brightness d.system_state r g b = (r, g, b))
      ∧ (d.system_state.brightness = 0 → apply_brightness d.system_state r g b = (0, 0, 0))
      ∧ (set_all_leds d r g b).led_strip.shown
          = frame_fill (scale_spec d.system_state.brightness (r, g, b))
      ∧ (∀ tb : Nat, d.system_state.is_light_on = true →
          d.system_state.effect = EFFECT_RAINBOW →
          (light_effect_tick tb d).1.led_strip.shown
            = frame_fill (scale_spec d.system_state.brightness (hsv_to_rgb d.hue 255 255)))
      ∧ (∀ tb : Nat, d.system_state.is_light_on = true →
          d.system_state.effect = EFFECT_RAINBOW_CYCLE →
          (light_effect_tick tb d).1.led_strip.shown.val
            = (List.range 5).map (fun i =>
                scale_spec d.system_state.brightness
                  (hsv_to_rgb (pixel_hue d.hue i) 255 255))) := by
  have hs := apply_brightness_eq_scale_spec d.system_state (r, g, b) hr hg hb hbr
  simp only at hs
  have bound : ∀ c : Nat, c ≤ 255 →
      0 ≤ (c : Int) * (d.system_state.brightness : Int) / 100
        ∧ (c : Int) * (d.system_state.brightness : Int) / 100 < 256 := by
    intro c hc
    have h1 : c * d.system_state.brightness ≤ 255 * 100 := Nat.mul_le_mul hc hbr
    have h2 : ((c * d.system_state.brightness : Nat) : Int)
        = (c : Int) * (d.system_state.brightness : Int) := by push_cast; rfl
    rw [← h2]
    omega
  have le : ∀ c : Nat, c * d.system_state.brightness / 100 ≤ c := by
    intro c
    have h1 : c * d.system_state.brightness ≤ c * 100 := Nat.mul_le_mul_left c hbr
    omega
  refine ⟨hs, ⟨(bound r hr).1, (bound r hr).2, (bound g hg).1, (bound g hg).2,
    (bound b hb).1, (bound b hb).2⟩, ?_, ?_, ?_, ?_, ?_, ?_⟩
  · rw [hs]
    exact ⟨le r, le g, le b⟩
  · intro h100
    rw [hs, h100]
    simp [scale_spec]
  · intro h0
    rw [hs, h0]
    simp [scale_spec]
  · rw [set_all_leds_shown, hs]
  · intro tb hp he
    have hc := hsv_to_rgb_le d.hue 255 255 (le_refl _)
    rw [light_effect_tick_rainbow tb d hp he]
    simp only
    rw [set_all_leds_shown,
      apply_brightness_eq_scale_spec d.system_state _ hc.1 hc.2.1 hc.2.2 hbr]
  · intro tb hp he
    rw [light_effect_tick_rainbow_cycle tb d hp he]
    simp only [led_strip_refresh]
    rw [rainbow_cycle_loop_buffer]
    apply List.map_congr_left
    intro i _
    have hc := hsv_to_rgb_le (pixel_hue d.hue i) 255 255 (le_refl _)
    exact apply_brightness_eq_scale_spec d.system_state _ hc.1 hc.2.1 hc.2.2 hbr

/-- C16, at the color (200, 100, 51) on a device with brightness 50, power
on and the RainbowCycle effect set. -/
theorem brightness_scaling_witness :
    ((200 ≤ 255 ∧ 100 ≤ 255 ∧ 51 ≤ 255 ∧ device_cycle_dim.system_state.brightness ≤ 100)
      ∧ device_cycle_dim.system_state.is_light_on = true
      ∧ device_cycle_dim.system_state.effect = EFFECT_RAINBOW_CYCLE)
    ∧ (apply_brightness device_cycle_dim.system_state 200 100 51
          = scale_spec device_cycle_dim.system_state.brightness (200, 100, 51)
      ∧ (0 ≤ ((200 : Nat) : Int) * (device_cycle_dim.system_state.brightness : Int) / 100
          ∧ ((200 : Nat) : Int) * (device_cycle_dim.system_state.brightness : Int) / 100 < 256
          ∧ 0 ≤ ((100 : Nat) : Int) * (device_cycle_dim.system_state.brightness : Int) / 100
          ∧ ((100 : Nat) : Int) * (device_cycle_dim.system_state.brightness : Int) / 100 < 256
          ∧ 0 ≤ ((51 : Nat) : Int) * (device_cycle_dim.system_state.brightness : Int) / 100
          ∧ ((51 : Nat) : Int) * (device_cycle_dim.system_state.brightness : Int) / 100 < 256)
      ∧ ((apply_brightness device_cycle_dim.system_state 200 100 51).1 ≤ 200
          ∧ (apply_brightness device_cycle_dim.system_state 200 100 51).2.1 ≤ 100
          ∧ (apply_brightness device_cycle_dim.system_state 200 100 51).2.2 ≤ 51)
      ∧ (device_cycle_dim.system_state.brightness = 100 →
          apply_brightness device_cycle_dim.system_state 200 100 51 = (200, 100, 51))
      ∧ (device_cycle_dim.system_state.brightness = 0 →
          apply_brightness device_cycle_dim.system_state 200 100 51 = (0, 0, 0))
      ∧ (set_all_leds device_cycle_dim 200 100 51).led_strip.shown
          = frame_fill (scale_spec device_cycle_dim.system_state.brightness (200, 100, 51))
      ∧ (∀ tb : Nat, device_cycle_dim.system_state.is_light_on = true →
          device_cycle_dim.system_state.effect = EFFECT_RAINBOW →
          (light_effect_tick tb device_cycle_dim).1.led_strip.shown
            = frame_fill (scale_spec device_cycle_dim.system_state.brightness
                (hsv_to_rgb device_cycle_dim.hue 255 255)))
      ∧ (∀ tb : Nat, device_cycle_dim.system_state.is_light_on = true →
          device_cycle_dim.system_state.effect = EFFECT_RAINBOW_CYCLE →
          (light_effect_tick tb device_cycle_dim).1.led_strip.shown.val
            = (List.range 5).map (fun i =>
                scale_spec device_cycle_dim.system_state.brightness
                  (hsv_to_rgb (pixel_hue device_cycle_dim.hue i) 255 255)))) :=
  ⟨by decide, brightness_scaling device_cycle_dim 200 100 51 (by decide) (by decide)
    (by decide) (by decide)⟩

/-! ## Groups of writes -/

theorem exec_on_stmts (d : device_t) : exec_stmts on_stmts d = run_command command.on d := by
  rw [run_command_on]
  rfl

theorem exec_set_color_stmts (d : device_t) (r g b : Int) :
    exec_stmts (set_color_stmts (to_uint8 r) (to_uint8 g) (to_uint8 b) d) d
      = run_command (command.set_color r g b) d := by
  rw [run_command_set_color]
  cases hp : d.system_state.is_light_on <;>
    simp [set_color_stmts, exec_stmts, stmt.exec, set_rgb_color, hp]

theorem exec_sensor_monitor_stmts (d : device_t) (light : Int) (motion : Bool) :
    exec_stmts (sensor_monitor_stmts light motion d) d = sensor_monitor_tick light motion d := by
  cases ha : d.system_state.is_auto_mode <;> cases hp : d.system_state.is_light_on <;>
    cases motion <;> by_cases hl : light > LIGHT_THRESHOLD <;>
    simp [sensor_monitor_stmts, sensor_monitor_tick, exec_stmts, stmt.exec, turn_on_light_stmts,
      turn_off_light_stmts, turn_on_light, turn_off_light, ha, hp, hl]

/-- C20, as stated, fails: the arbiter tick that turns the light on from the
state with the Rainbow effect stored and power off executes five statements;
a GET /status read served after the third one reports the effect already
cleared and power still off, where the reads before and after the tick
report (Rainbow, off) and (None, on).  In the same way the state that the
other tasks see after the second statement of set_color(10, 20, 30) has the
effect cleared and the color (10, 255, 255). -/
theorem status_sees_half_applied_group :
    sensor_monitor_stmts 3500 true device_rainbow_off
        = [stmt.store_light_value 3500, stmt.store_motion_detected true,
            stmt.store_effect EFFECT_NONE, stmt.call_set_all_leds_state,
            stmt.store_is_light_on true]
      ∧ ((status_get_handler device_rainbow_off).effect = 3
          ∧ (status_get_handler device_rainbow_off).light_on = false)
      ∧ ((status_get_handler
            (exec_stmts ((sensor_monitor_stmts 3500 true device_rainbow_off).take 3)
              device_rainbow_off)).effect = 0
          ∧ (status_get_handler
            (exec_stmts ((sensor_monitor_stmts 3500 true device_rainbow_off).take 3)
              device_rainbow_off)).light_on = false)
      ∧ ((status_get_handler (sensor_monitor_tick 3500 true device_rainbow_off)).effect = 0
          ∧ (status_get_handler (sensor_monitor_tick 3500 true device_rainbow_off)).light_on
              = true)
      ∧ (device_rainbow.system_state.red = 255
          ∧ device_rainbow.system_state.green = 255
          ∧ device_rainbow.system_state.effect = 3)
      ∧ ((exec_stmts ((set_color_stmts 10 20 30 device_rainbow).take 2)
            device_rainbow).system_state.red = 10
          ∧ (exec_stmts ((set_color_stmts 10 20 30 device_rainbow).take 2)
            device_rainbow).system_state.green = 255
          ∧ (exec_stmts ((set_color_stmts 10 20 30 device_rainbow).take 2)
            device_rainbow).system_state.effect = 0) := by
  decide

/-- C20, amended: the statements of the on command, of the set_color command
and of an arbiter tick, run to their end without interruption, give exactly
the state of the whole command or tick, in which the group is applied as a
whole: power on and effect None after on, the new color and effect None
after set_color, power on and effect None after an arbiter tick that turns
the light on. -/
theorem writers_complete_their_groups (d : device_t) :
    (exec_stmts on_stmts d = run_command command.on d
        ∧ (run_command command.on d).system_state.is_light_on = true
        ∧ (run_command command.on d).system_state.effect = EFFECT_NONE)
      ∧ (∀ r g b : Int,
          exec_stmts (set_color_stmts (to_uint8 r) (to_uint8 g) (to_uint8 b) d) d
              = run_command (command.set_color r g b) d
            ∧ (run_command (command.set_color r g b) d).system_state.red = to_uint8 r
            ∧ (run_command (command.set_color r g b) d).system_state.green = to_uint8 g
            ∧ (run_command (command.set_color r g b) d).system_state.blue = to_uint8 b
            ∧ (run_command (command.set_color r g b) d).system_state.effect = EFFECT_NONE)
      ∧ (∀ (light : Int) (motion : Bool),
          exec_stmts (sensor_monitor_stmts light motion d) d
              = sensor_monitor_tick light motion d
            ∧ (d.system_state.is_auto_mode = true → d.system_state.is_light_on = false →
                (sensor_monitor_tick light motion d).system_state.is_light_on = true →
                (sensor_monitor_tick light motion d).system_state.effect = EFFECT_NONE)) := by
  refine ⟨⟨exec_on_stmts d, ?_, ?_⟩, fun r g b => ⟨exec_set_color_stmts d r g b, ?_⟩,
    fun light motion => ⟨exec_sensor_monitor_stmts d light motion, ?_⟩⟩
  · rw [run_command_on]
    rfl
  · rw [run_command_on]
    rfl
  · rw [run_command_set_color, set_rgb_color_system_state]
    exact ⟨rfl, rfl, rfl, rfl⟩
  · intro ha hp hon
    rw [sensor_monitor_tick_effect light motion d ha]
    rw [sensor_monitor_tick_power light motion d ha] at hon
    rw [if_pos ⟨hon, hp⟩]

/-- C20 amended, at the device with the Rainbow effect stored and power off,
for the arbiter tick that turns the light on. -/
theorem writers_complete_their_groups_witness :
    (device_rainbow_off.system_state.is_auto_mode = true
      ∧ device_rainbow_off.system_state.is_light_on = false
      ∧ (sensor_monitor_tick 3500 true device_rainbow_off).system_state.is_light_on = true)
    ∧ exec_stmts (sensor_monitor_stmts 3500 true device_rainbow_off) device_rainbow_off
        = sensor_monitor_tick 3500 true device_rainbow_off
    ∧ (sensor_monitor_tick 3500 true device_rainbow_off).system_state.effect = EFFECT_NONE :=
  ⟨by decide,
    ((writers_complete_their_groups device_rainbow_off).2.2 3500 true).1,
    ((writers_complete_their_groups device_rainbow_off).2.2 3500 true).2 (by decide)
      (by decide) (by decide)⟩

/-! ## Range of the HSV conversion -/

theorem byte_mul_shift_le (a b : Int) (ha0 : 0 ≤ a) (hb0 : 0 ≤ b) (hb : b ≤ 255) :
    a * b / 256 ≤ a := by
  have h1 : 0 ≤ a * b := by positivity
  have h2 : a * b ≤ 256 * a := by nlinarith
  omega

theorem hsv_p_le (s v : Nat) (hs : s ≤ 255) (hv : v ≤ 255) : to_uint8 (hsv_p s v) ≤ v := by
  have hP := hsv_p_range s v hs hv
  have hc := to_uint8_cast _ hP.1 (show hsv_p s v < 256 by omega)
  have hle : hsv_p s v ≤ (v : Int) := by
    unfold hsv_p
    rw [shiftRight_8]
    exact byte_mul_shift_le (v : Int) (255 - (s : Int)) (by omega) (by omega) (by omega)
  omega

theorem hsv_q_le (s v m : Nat) (hs : s ≤ 255) (hv : v ≤ 255) (hm : m ≤ 255) :
    to_uint8 (hsv_q s v m) ≤ v := by
  have hQ := hsv_q_range s v m hs hv hm
  have hc := to_uint8_cast _ hQ.1 (show hsv_q s v m < 256 by omega)
  have hle : hsv_q s v m ≤ (v : Int) := by
    unfold hsv_q
    rw [shiftRight_8, shiftRight_8]
    have h1 := byte_mul_shift (s : Int) (m : Int) (by omega) (by omega) (by omega) (by omega)
    exact byte_mul_shift_le (v : Int) _ (by omega) (by omega) (by omega)
  omega

theorem hsv_t_le (s v m : Nat) (hs : s ≤ 255) (hv : v ≤ 255) (hm : m ≤ 255) :
    to_uint8 (hsv_t s v m) ≤ v := by
  have hT := hsv_t_range s v m hs hv hm
  have hc := to_uint8_cast _ hT.1 (show hsv_t s v m < 256 by omega)
  have hle : hsv_t s v m ≤ (v : Int) := by
    unfold hsv_t
    rw [shiftRight_8, shiftRight_8]
    have h1 := byte_mul_shift (s : Int) (255 - (m : Int))
      (by omega) (by omega) (by omega) (by omega)
    exact byte_mul_shift_le (v : Int) _ (by omega) (by omega) (by omega)
  omega

theorem hsv_p_full_saturation (v : Nat) : to_uint8 (hsv_p 255 v) = 0 := by
  unfold hsv_p
  rw [shiftRight_8]
  simp [to_uint8]

/-- C28: for s and v in [0,255] and every hue h (in [0,255] in particular)
no component of `hsv_to_rgb h s v` exceeds v, the largest component is v, and
at s = 255 the smallest component is 0. -/
theorem hsv_to_rgb_component_range (h s v : Nat) (hs : s ≤ 255) (hv : v ≤ 255) :
    ((hsv_to_rgb h s v).1 ≤ v ∧ (hsv_to_rgb h s v).2.1 ≤ v ∧ (hsv_to_rgb h s v).2.2 ≤ v)
      ∧ max (hsv_to_rgb h s v).1 (max (hsv_to_rgb h s v).2.1 (hsv_to_rgb h s v).2.2) = v
      ∧ (s = 255 →
          min (hsv_to_rgb h s v).1 (min (hsv_to_rgb h s v).2.1 (hsv_to_rgb h s v).2.2) = 0) := by
  by_cases hs0 : s = 0
  · subst hs0
    simp [hsv_to_rgb]
  · have hmle : to_uint8 (hsv_remainder h (to_uint8 (hsv_region h))) ≤ 255 := by
      have := to_uint8_lt (hsv_remainder h (to_uint8 (hsv_region h)))
      omega
    have hp := hsv_p_le s v hs hv
    have hq := hsv_q_le s v _ hs hv hmle
    have ht := hsv_t_le s v _ hs hv hmle
    have h0 : s = 255 → to_uint8 (hsv_p s v) = 0 := by
      intro h255
      subst h255
      exact hsv_p_full_saturation v
    unfold hsv_to_rgb
    rw [if_neg hs0]
    simp only
    split <;> dsimp only <;> exact ⟨⟨by omega, by omega, by omega⟩, by omega, fun h255 => by
      have := h0 h255
      omega⟩

/-- C28, at h = 200, s = 255, v = 90. -/
theorem hsv_to_rgb_component_range_witness :
    (255 ≤ 255 ∧ 90 ≤ 255)
      ∧ (((hsv_to_rgb 200 255 90).1 ≤ 90 ∧ (hsv_to_rgb 200 255 90).2.1 ≤ 90
          ∧ (hsv_to_rgb 200 255 90).2.2 ≤ 90)
        ∧ max (hsv_to_rgb 200 255 90).1
            (max (hsv_to_rgb 200 255 90).2.1 (hsv_to_rgb 200 255 90).2.2) = 90
        ∧ (255 = 255 →
            min (hsv_to_rgb 200 255 90).1
              (min (hsv_to_rgb 200 255 90).2.1 (hsv_to_rgb 200 255 90).2.2) = 0)) :=
  ⟨by decide, hsv_to_rgb_component_range 200 255 90 (by decide) (by decide)⟩

/-! ## Arguments of set_color -/

/-- C30: for every integers r, g, b carried by a set_color command the
stored components are r mod 256, g mod 256 and b mod 256, each in [0,255];
values outside [0,255] are truncated to 8 bits, not clamped (300 is stored
as 44, -1 as 255). -/
theorem set_color_truncates (d : device_t) (r g b : Int) :
    (((run_command (command.set_color r g b) d).system_state.red : Int) = r % 256
        ∧ ((run_command (command.set_color r g b) d).system_state.green : Int) = g % 256
        ∧ ((run_command (command.set_color r g b) d).system_state.blue : Int) = b % 256)
      ∧ ((run_command (command.set_color r g b) d).system_state.red ≤ 255
        ∧ (run_command (command.set_color r g b) d).system_state.green ≤ 255
        ∧ (run_command (command.set_color r g b) d).system_state.blue ≤ 255)
      ∧ ((run_command (command.set_color 300 (-1) 256) d).system_state.red = 44
        ∧ (run_command (command.set_color 300 (-1) 256) d).system_state.green = 255
        ∧ (run_command (command.set_color 300 (-1) 256) d).system_state.blue = 0) := by
  simp only [run_command_set_color, set_rgb_color_system_state]
  refine ⟨⟨?_, ?_, ?_⟩, ⟨?_, ?_, ?_⟩, by decide, by decide, by decide⟩ <;>
    simp only [to_uint8] <;> omega

/-! ## The effect speed and the delay of the rainbow effects -/

theorem control_dispatch_effect_speed (root : json_body) (d : device_t) :
    (control_dispatch root d).system_state.effect_speed = d.system_state.effect_speed := by
  unfold control_dispatch
  repeat' split
  all_goals try simp only [turn_on_light_system_state, turn_off_light_system_state,
    set_rgb_color_system_state, set_brightness_system_state]
  all_goals repeat' split
  all_goals rfl

theorem sensor_monitor_tick_effect_speed (light : Int) (motion : Bool) (d : device_t) :
    (sensor_monitor_tick light motion d).system_state.effect_speed
      = d.system_state.effect_speed := by
  unfold sensor_monitor_tick
  simp only
  repeat' split
  all_goals rfl

theorem step_effect_speed (d d1 : device_t) (hs : step d d1) :
    d1.system_state.effect_speed = d.system_state.effect_speed := by
  cases hs with
  | control req d =>
    cases req with
    | recv_failed => rfl
    | parse_failed => rfl
    | parsed root => exact control_dispatch_effect_speed root d
  | sensor light motion d => exact sensor_monitor_tick_effect_speed light motion d
  | effect tb d => rw [light_effect_tick_system_state]

theorem reachable_effect_speed (d : device_t) (h : reachable d) :
    d.system_state.effect_speed = 50 := by
  induction h with
  | init => rfl
  | next d d1 _ hs ih => rw [step_effect_speed d d1 hs, ih]

theorem light_effect_tick_rainbow_delay (tb : Nat) (d : device_t)
    (hp : d.system_state.is_light_on = true)
    (he : d.system_state.effect = EFFECT_RAINBOW
      ∨ d.system_state.effect = EFFECT_RAINBOW_CYCLE) :
    (light_effect_tick tb d).2 = some (100 - (d.system_state.effect_speed : Int)) := by
  rcases he with he | he
  · rw [light_effect_tick_rainbow tb d hp he]
  · rw [light_effect_tick_rainbow_cycle tb d hp he]

/-- C29: in every state reachable from the initial state by `/control`
requests, arbiter ticks and effect ticks, `effect_speed` is 50, and the
delay after a Rainbow or RainbowCycle tick taken in a reachable state is
50 ms. -/
theorem effect_speed_never_written :
    (∀ d : device_t, reachable d → d.system_state.effect_speed = 50)
      ∧ (∀ (d : device_t) (tb : Nat), reachable d → d.system_state.is_light_on = true →
          (d.system_state.effect = EFFECT_RAINBOW
            ∨ d.system_state.effect = EFFECT_RAINBOW_CYCLE) →
          (light_effect_tick tb d).2 = some 50) := by
  refine ⟨reachable_effect_speed, ?_⟩
  intro d tb hr hp he
  rw [light_effect_tick_rainbow_delay tb d hp he, reachable_effect_speed d hr]
  rfl

/-- C29, at the state reached by the command set_effect 3. -/
theorem effect_speed_never_written_witness :
    (reachable device_rainbow ∧ device_rainbow.system_state.is_light_on = true
      ∧ (device_rainbow.system_state.effect = EFFECT_RAINBOW
        ∨ device_rainbow.system_state.effect = EFFECT_RAINBOW_CYCLE))
    ∧ device_rainbow.system_state.effect_speed = 50
    ∧ (light_effect_tick 0 device_rainbow).2 = some 50 :=
  ⟨⟨reachable.next _ _ reachable.init (step.control _ _), by decide, by decide⟩,
    effect_speed_never_written.1 _ (reachable.next _ _ reachable.init (step.control _ _)),
    effect_speed_never_written.2 _ 0 (reachable.next _ _ reachable.init (step.control _ _))
      (by decide) (by decide)⟩

theorem control_dispatch_effect_cases (root : json_body) (d : device_t) :
    (control_dispatch root d).system_state.effect = d.system_state.effect
      ∨ (control_dispatch root d).system_state.effect = EFFECT_NONE
      ∨ ∃ e, root.effect = some e
          ∧ (control_dispatch root d).system_state.effect = to_effect e := by
  unfold control_dispatch
  repeat' split
  all_goals try simp only [turn_on_light_system_state, turn_off_light_system_state,
    set_rgb_color_system_state, set_brightness_system_state]
  all_goals repeat' split
  all_goals first
    | exact Or.inl rfl
    | exact Or.inl trivial
    | exact Or.inr (Or.inl rfl)
    | exact Or.inr (Or.inl trivial)
    | exact Or.inr (Or.inr ⟨_, by assumption, rfl⟩)

theorem sensor_monitor_tick_effect_cases (light : Int) (motion : Bool) (d : device_t) :
    (sensor_monitor_tick light motion d).system_state.effect = d.system_state.effect
      ∨ (sensor_monitor_tick light motion d).system_state.effect = EFFECT_NONE := by
  unfold sensor_monitor_tick
  simp only
  repeat' split
  all_goals first
    | exact Or.inl rfl
    | exact Or.inr rfl

theorem reachable_defined_effect (d : device_t) (h : reachable_defined d) :
    d.system_state.effect ≤ 4 := by
  induction h with
  | init => decide
  | control req d _ hreq ih =>
    cases req with
    | recv_failed => exact ih
    | parse_failed => exact ih
    | parsed root =>
      show (control_dispatch root d).system_state.effect ≤ 4
      rcases control_dispatch_effect_cases root d with h | h | ⟨e, he, h⟩
      · rw [h]; exact ih
      · rw [h]; decide
      · rw [h]
        simp only [effect_item_defined, he, decide_eq_true_eq] at hreq
        unfold to_effect
        omega
  | sensor light motion d _ ih =>
    rcases sensor_monitor_tick_effect_cases light motion d with h | h
    · rw [h]; exact ih
    · rw [h]; decide
  | effect tb d _ ih =>
    rw [light_effect_tick_system_state]
    exact ih

/-- C26: the command set_effect 7, served in the initial state, leaves a
reachable state with power on whose stored effect is 7, none of the five
defined values 0..4; an iteration of the effect loop taken in that state
makes no driver call, changes nothing and reaches no delay. -/
theorem undefined_effect_stored :
    reachable (run_command (command.set_effect 7) device_init)
      ∧ (run_command (command.set_effect 7) device_init).system_state.effect = 7
      ∧ ¬ (run_command (command.set_effect 7) device_init).system_state.effect ≤ 4
      ∧ (run_command (command.set_effect 7) device_init).system_state.is_light_on = true
      ∧ (∀ tb : Nat,
          light_effect_tick tb (run_command (command.set_effect 7) device_init)
            = (run_command (command.set_effect 7) device_init, none)) := by
  refine ⟨reachable.next _ _ reachable.init (step.control _ _), by decide, by decide,
    by decide, fun tb => ?_⟩
  have he : (run_command (command.set_effect 7) device_init).system_state.effect = 7 := by
    decide
  have hp : (run_command (command.set_effect 7) device_init).system_state.is_light_on
      = true := by decide
  simp [light_effect_tick, hp, he, EFFECT_NONE, EFFECT_RAINBOW, EFFECT_RAINBOW_CYCLE,
    EFFECT_BREATH]

/-! ## The idle iteration of the effect loop -/

/-- C22: when power is off or the effect is None, an iteration of the effect
loop makes no driver call and shows no frame, leaves the device (state,
strip, hue) and the phase as they are, and ends with the 100 ms delay. -/
theorem idle_tick_changes_nothing {φ : Type} (ops : breath_ops φ) (breath_phase : φ)
    (tb : Nat) (d : device_t)
    (h : d.system_state.is_light_on = false ∨ d.system_state.effect = EFFECT_NONE) :
    light_effect_tick tb d = (d, some 100)
      ∧ light_effect_task_tick ops breath_phase d = (breath_phase, d, some 100) := by
  have h1 : ∀ t : Nat, light_effect_tick t d = (d, some 100) := by
    intro t
    rcases h with h | h <;> simp [light_effect_tick, h]
  refine ⟨h1 tb, ?_⟩
  have h2 : ¬ (d.system_state.is_light_on = true ∧ d.system_state.effect = EFFECT_BREATH) := by
    rintro ⟨hp, he⟩
    rcases h with h | h
    · rw [hp] at h
      exact absurd h (by decide)
    · rw [he] at h
      exact absurd h (by decide)
  simp only [light_effect_task_tick, if_neg h2, h1]

/-- C22, in the initial state (power off, effect None) and in the state with
the Rainbow effect stored and power off. -/
theorem idle_tick_changes_nothing_witness :
    ((device_init.system_state.is_light_on = false
        ∨ device_init.system_state.effect = EFFECT_NONE)
      ∧ (device_rainbow_off.system_state.is_light_on = false
        ∨ device_rainbow_off.system_state.effect = EFFECT_NONE))
    ∧ (light_effect_tick 7 device_init = (device_init, some 100)
      ∧ light_effect_task_tick
          ({ next_phase := fun p => p + 1, temp_brightness := fun b _ => b } : breath_ops Nat)
          3 device_init = (3, device_init, some 100))
    ∧ (light_effect_tick 7 device_rainbow_off = (device_rainbow_off, some 100)
      ∧ light_effect_task_tick
          ({ next_phase := fun p => p + 1, temp_brightness := fun b _ => b } : breath_ops Nat)
          3 device_rainbow_off = (3, device_rainbow_off, some 100)) :=
  ⟨by decide,
    idle_tick_changes_nothing _ 3 7 device_init (by decide),
    idle_tick_changes_nothing _ 3 7 device_rainbow_off (by decide)⟩

/-! ## The rainbow effects -/

theorem light_effect_tick_hue_range (tb : Nat) (d : device_t) (hh : d.hue ≤ 255) :
    (light_effect_tick tb d).1.hue ≤ 255 := by
  unfold light_effect_tick
  simp only
  repeat' split
  all_goals first
    | exact hh
    | (show (d.hue + 1) % 256 ≤ 255; omega)

theorem control_dispatch_hue (root : json_body) (d : device_t) :
    (control_dispatch root d).hue = d.hue := by
  unfold control_dispatch
  repeat' split
  all_goals first
    | rfl
    | (simp only [set_rgb_color, set_brightness]; repeat' split; all_goals rfl)

theorem sensor_monitor_tick_hue (light : Int) (motion : Bool) (d : device_t) :
    (sensor_monitor_tick light motion d).hue = d.hue := by
  unfold sensor_monitor_tick
  simp only
  repeat' split
  all_goals rfl

theorem reachable_hue_range (d : device_t) (h : reachable d) : d.hue ≤ 255 := by
  induction h with
  | init => decide
  | next d d1 _ hs ih =>
    cases hs with
    | control req d =>
      cases req with
      | recv_failed => exact ih
      | parse_failed => exact ih
      | parsed root =>
        show (control_dispatch root d).hue ≤ 255
        rw [control_dispatch_hue]
        exact ih
    | sensor light motion d =>
      rw [sensor_monitor_tick_hue]
      exact ih
    | effect tb d => exact light_effect_tick_hue_range tb d ih

theorem light_effect_ticks_rainbow (tb n : Nat) (d : device_t)
    (hp : d.system_state.is_light_on = true) (he : d.system_state.effect = EFFECT_RAINBOW)
    (hh : d.hue ≤ 255) :
    (light_effect_ticks tb n d).hue = (d.hue + n) % 256
      ∧ (light_effect_ticks tb n d).system_state = d.system_state := by
  induction n generalizing d with
  | zero =>
    refine ⟨?_, rfl⟩
    show d.hue = (d.hue + 0) % 256
    omega
  | succ n ih =>
    have hs := light_effect_tick_system_state tb d
    have hhue : (light_effect_tick tb d).1.hue = (d.hue + 1) % 256 := by
      rw [light_effect_tick_rainbow tb d hp he]
    have := ih (light_effect_tick tb d).1 (by rw [hs]; exact hp) (by rw [hs]; exact he)
      (by rw [hhue]; omega)
    show (light_effect_ticks tb n (light_effect_tick tb d).1).hue = (d.hue + (n + 1)) % 256
      ∧ (light_effect_ticks tb n (light_effect_tick tb d).1).system_state = d.system_state
    rw [this.1, this.2, hhue, hs]
    exact ⟨by omega, rfl⟩

/-- C23: on an effect tick with power on and the Rainbow effect, the hue
goes from h (in [0,255]) to (h + 1) mod 256, so it stays in [0,255] and 255
wraps to 0, and 256 consecutive ticks bring it back to h; the frame shown on
the tick has all 5 pixels at `hsv_to_rgb h 255 255` scaled by
`apply_brightness`, which for a brightness in [0,100] is the scaling
component * brightness / 100. -/
theorem rainbow_tick_advances_hue (d : device_t) (tb : Nat)
    (hp : d.system_state.is_light_on = true) (he : d.system_state.effect = EFFECT_RAINBOW)
    (hh : d.hue ≤ 255) :
    (light_effect_tick tb d).1.hue = (d.hue + 1) % 256
      ∧ (light_effect_tick tb d).1.hue ≤ 255
      ∧ (d.hue = 255 → (light_effect_tick tb d).1.hue = 0)
      ∧ (light_effect_ticks tb 256 d).hue = d.hue
      ∧ (light_effect_tick tb d).1.led_strip.shown.val
          = List.replicate 5
              (apply_brightness d.system_state (hsv_to_rgb d.hue 255 255).1
                (hsv_to_rgb d.hue 255 255).2.1 (hsv_to_rgb d.hue 255 255).2.2)
      ∧ (d.system_state.brightness ≤ 100 →
          (light_effect_tick tb d).1.led_strip.shown.val
            = List.replicate 5
                (scale_spec d.system_state.brightness (hsv_to_rgb d.hue 255 255))) := by
  have hhue : (light_effect_tick tb d).1.hue = (d.hue + 1) % 256 := by
    rw [light_effect_tick_rainbow tb d hp he]
  have hshown : (light_effect_tick tb d).1.led_strip.shown
      = frame_fill (apply_brightness d.system_state (hsv_to_rgb d.hue 255 255).1
          (hsv_to_rgb d.hue 255 255).2.1 (hsv_to_rgb d.hue 255 255).2.2) := by
    rw [light_effect_tick_rainbow tb d hp he]
    simp only
    rw [set_all_leds_shown]
  refine ⟨hhue, by rw [hhue]; omega, fun h255 => by rw [hhue, h255], ?_, ?_, ?_⟩
  · rw [(light_effect_ticks_rainbow tb 256 d hp he hh).1]
    omega
  · rw [hshown]
    rfl
  · intro hbr
    have hc := hsv_to_rgb_le d.hue 255 255 (le_refl _)
    rw [hshown, apply_brightness_eq_scale_spec d.system_state _ hc.1 hc.2.1 hc.2.2 hbr]
    rfl

/-- C23, at the state reached by the command set_effect 3 (hue 0,
brightness 100). -/
theorem rainbow_tick_advances_hue_witness :
    (device_rainbow.system_state.is_light_on = true
      ∧ device_rainbow.system_state.effect = EFFECT_RAINBOW ∧ device_rainbow.hue ≤ 255
      ∧ device_rainbow.system_state.brightness ≤ 100)
    ∧ ((light_effect_tick 0 device_rainbow).1.hue = (device_rainbow.hue + 1) % 256
      ∧ (light_effect_tick 0 device_rainbow).1.hue ≤ 255
      ∧ (device_rainbow.hue = 255 → (light_effect_tick 0 device_rainbow).1.hue = 0)
      ∧ (light_effect_ticks 0 256 device_rainbow).hue = device_rainbow.hue
      ∧ (light_effect_tick 0 device_rainbow).1.led_strip.shown.val
          = List.replicate 5
              (apply_brightness device_rainbow.system_state
                (hsv_to_rgb device_rainbow.hue 255 255).1
                (hsv_to_rgb device_rainbow.hue 255 255).2.1
                (hsv_to_rgb device_rainbow.hue 255 255).2.2)
      ∧ (device_rainbow.system_state.brightness ≤ 100 →
          (light_effect_tick 0 device_rainbow).1.led_strip.shown.val
            = List.replicate 5
                (scale_spec device_rainbow.system_state.brightness
                  (hsv_to_rgb device_rainbow.hue 255 255)))) :=
  ⟨by decide,
    rainbow_tick_advances_hue device_rainbow 0 (by decide) (by decide) (by decide)⟩

theorem rainbow_cycle_loop_calls (st : system_state_t) (hue : Nat) (l : led_strip_t) :
    (rainbow_cycle_loop st hue 0 LED_STRIP_LENGTH l).calls
      = l.calls ++ (List.range 5).map (fun i =>
          led_call.set_pixel i
            (apply_brightness st (hsv_to_rgb (pixel_hue hue i) 255 255).1
              (hsv_to_rgb (pixel_hue hue i) 255 255).2.1
              (hsv_to_rgb (pixel_hue hue i) 255 255).2.2).1
            (apply_brightness st (hsv_to_rgb (pixel_hue hue i) 255 255).1
              (hsv_to_rgb (pixel_hue hue i) 255 255).2.1
              (hsv_to_rgb (pixel_hue hue i) 255 255).2.2).2.1
            (apply_brightness st (hsv_to_rgb (pixel_hue hue i) 255 255).1
              (hsv_to_rgb (pixel_hue hue i) 255 255).2.1
              (hsv_to_rgb (pixel_hue hue i) 255 255).2.2).2.2) := by
  simp [rainbow_cycle_loop, LED_STRIP_LENGTH, List.range, List.range.loop, led_strip_set_pixel,
    pixel_hue]

theorem pixel_hue_offsets (h : Nat) :
    pixel_hue h 0 = h % 256 ∧ pixel_hue h 1 = (h + 51) % 256 ∧ pixel_hue h 2 = (h + 102) % 256
      ∧ pixel_hue h 3 = (h + 153) % 256 ∧ pixel_hue h 4 = (h + 204) % 256 := by
  simp only [pixel_hue, LED_STRIP_LENGTH]
  refine ⟨?_, ?_, ?_, ?_, ?_⟩ <;> norm_num <;> omega

/-- C25: on a RainbowCycle tick with hue h and a brightness in [0,100],
pixel i of the frame shown is `hsv_to_rgb (pixel_hue h i) 255 255` scaled by
component * brightness / 100, where the pixel hues are h, h + 51, h + 102,
h + 153 and h + 204 modulo 256, so that the hue of pixel 2 is the hue of
pixel 0 plus 102 modulo 256; at brightness 50 every component is the
full-value component halved with truncation; the driver is called for
exactly the 5 pixels 0..4 and then for the refresh; the hue advances by one
modulo 256. -/
theorem rainbow_cycle_frame (d : device_t) (tb : Nat)
    (hp : d.system_state.is_light_on = true)
    (he : d.system_state.effect = EFFECT_RAINBOW_CYCLE)
    (hbr : d.system_state.brightness ≤ 100) :
    (light_effect_tick tb d).1.led_strip.shown.val
        = (List.range 5).map (fun i =>
            scale_spec d.system_state.brightness (hsv_to_rgb (pixel_hue d.hue i) 255 255))
      ∧ (pixel_hue d.hue 0 = d.hue % 256 ∧ pixel_hue d.hue 1 = (d.hue + 51) % 256
          ∧ pixel_hue d.hue 2 = (d.hue + 102) % 256 ∧ pixel_hue d.hue 3 = (d.hue + 153) % 256
          ∧ pixel_hue d.hue 4 = (d.hue + 204) % 256)
      ∧ pixel_hue d.hue 2 = (pixel_hue d.hue 0 + 102) % 256
      ∧ (d.system_state.brightness = 50 →
          (light_effect_tick tb d).1.led_strip.shown.val
            = (List.range 5).map (fun i =>
                ((hsv_to_rgb (pixel_hue d.hue i) 255 255).1 / 2,
                  (hsv_to_rgb (pixel_hue d.hue i) 255 255).2.1 / 2,
                  (hsv_to_rgb (pixel_hue d.hue i) 255 255).2.2 / 2)))
      ∧ (light_effect_tick tb d).1.led_strip.calls
          = d.led_strip.calls
            ++ (List.range 5).map (fun i =>
                led_call.set_pixel i
                  (scale_spec d.system_state.brightness
                    (hsv_to_rgb (pixel_hue d.hue i) 255 255)).1
                  (scale_spec d.system_state.brightness
                    (hsv_to_rgb (pixel_hue d.hue i) 255 255)).2.1
                  (scale_spec d.system_state.brightness
                    (hsv_to_rgb (pixel_hue d.hue i) 255 255)).2.2)
            ++ [led_call.refresh]
      ∧ (light_effect_tick tb d).1.hue = (d.hue + 1) % 256 := by
  have hsc : ∀ i : Nat,
      apply_brightness d.system_state (hsv_to_rgb (pixel_hue d.hue i) 255 255).1
          (hsv_to_rgb (pixel_hue d.hue i) 255 255).2.1
          (hsv_to_rgb (pixel_hue d.hue i) 255 255).2.2
        = scale_spec d.system_state.brightness (hsv_to_rgb (pixel_hue d.hue i) 255 255) := by
    intro i
    have hc := hsv_to_rgb_le (pixel_hue d.hue i) 255 255 (le_refl _)
    exact apply_brightness_eq_scale_spec d.system_state _ hc.1 hc.2.1 hc.2.2 hbr
  have hshown : (light_effect_tick tb d).1.led_strip.shown.val
      = (List.range 5).map (fun i =>
          scale_spec d.system_state.brightness (hsv_to_rgb (pixel_hue d.hue i) 255 255)) := by
    rw [light_effect_tick_rainbow_cycle tb d hp he]
    simp only [led_strip_refresh]
    rw [rainbow_cycle_loop_buffer]
    exact List.map_congr_left (fun i _ => hsc i)
  have hoff := pixel_hue_offsets d.hue
  refine ⟨hshown, hoff, ?_, ?_, ?_, ?_⟩
  · rw [hoff.2.2.1, hoff.1]
    omega
  · intro h50
    rw [hshown, h50]
    apply List.map_congr_left
    intro i _
    simp only [scale_spec]
    refine Prod.ext ?_ (Prod.ext ?_ ?_) <;> simp only <;> omega
  · rw [light_effect_tick_rainbow_cycle tb d hp he]
    simp only [led_strip_refresh]
    rw [rainbow_cycle_loop_calls]
    simp only [hsc]
  · rw [light_effect_tick_rainbow_cycle tb d hp he]

/-- C25, at the state with brightness 50 and the RainbowCycle effect set. -/
theorem rainbow_cycle_frame_witness :
    (device_cycle_dim.system_state.is_light_on = true
      ∧ device_cycle_dim.system_state.effect = EFFECT_RAINBOW_CYCLE
      ∧ device_cycle_dim.system_state.brightness ≤ 100
      ∧ device_cycle_dim.system_state.brightness = 50)
    ∧ (light_effect_tick 0 device_cycle_dim).1.led_strip.shown.val
        = (List.range 5).map (fun i =>
            scale_spec device_cycle_dim.system_state.brightness
              (hsv_to_rgb (pixel_hue device_cycle_dim.hue i) 255 255))
    ∧ pixel_hue device_cycle_dim.hue 2 = (pixel_hue device_cycle_dim.hue 0 + 102) % 256
    ∧ (light_effect_tick 0 device_cycle_dim).1.led_strip.shown.val
        = (List.range 5).map (fun i =>
            ((hsv_to_rgb (pixel_hue device_cycle_dim.hue i) 255 255).1 / 2,
              (hsv_to_rgb (pixel_hue device_cycle_dim.hue i) 255 255).2.1 / 2,
              (hsv_to_rgb (pixel_hue device_cycle_dim.hue i) 255 255).2.2 / 2)) :=
  ⟨by decide,
    (rainbow_cycle_frame device_cycle_dim 0 (by decide) (by decide) (by decide)).1,
    (rainbow_cycle_frame device_cycle_dim 0 (by decide) (by decide) (by decide)).2.2.1,
    (rainbow_cycle_frame device_cycle_dim 0 (by decide) (by decide) (by decide)).2.2.2.1
      (by decide)⟩

end WS2812

/-! # The WiFi event handler -/

namespace Wifi

theorem event_handler_retry_range (e : wifi_event) (w : wifi_t)
    (h : 0 ≤ w.s_retry_num ∧ w.s_retry_num ≤ 5) :
    0 ≤ (event_handler e w).s_retry_num ∧ (event_handler e w).s_retry_num ≤ 5 := by
  cases e
  · exact h
  · simp only [event_handler, WIFI_MAXIMUM_RETRY]
    split
    · simp only
      omega
    · exact h
  · simp [event_handler]
  · exact h

theorem run_events_retry_range (es : List wifi_event) (w : wifi_t)
    (h : 0 ≤ w.s_retry_num ∧ w.s_retry_num ≤ 5) :
    0 ≤ (run_events es w).s_retry_num ∧ (run_events es w).s_retry_num ≤ 5 := by
  induction es generalizing w with
  | nil => exact h
  | cons e es ih => exact ih (event_handler e w) (event_handler_retry_range e w h)

theorem run_events_cons (e : wifi_event) (es : List wifi_event) (w : wifi_t) :
    run_events (e :: es) w = run_events es (event_handler e w) := rfl

theorem run_disconnects (k : Nat) (w : wifi_t) (hk : w.s_retry_num + k ≤ 5) :
    run_events (List.replicate k wifi_event.sta_disconnected) w
      = { w with connect_calls := w.connect_calls + k, s_retry_num := w.s_retry_num + k } := by
  induction k generalizing w with
  | zero => simp [run_events]
  | succ k ih =>
    rw [List.replicate_succ, run_events_cons]
    have hlt : w.s_retry_num < WIFI_MAXIMUM_RETRY := by
      simp only [WIFI_MAXIMUM_RETRY]
      push_cast at hk
      omega
    have he : event_handler wifi_event.sta_disconnected w
        = { w with connect_calls := w.connect_calls + 1, s_retry_num := w.s_retry_num + 1 } := by
      simp [event_handler, hlt]
    rw [he, ih]
    · simp only
      congr 1
      · push_cast
        omega
      · omega
    · simp only
      push_cast at hk ⊢
      omega

theorem run_events_append (es fs : List wifi_event) (w : wifi_t) :
    run_events (es ++ fs) w = run_events fs (run_events es w) := by
  simp [run_events, List.foldl_append]

theorem run_events_fail_bit (es : List wifi_event) (w : wifi_t) (h : w.fail_bit = true) :
    (run_events es w).fail_bit = true := by
  induction es generalizing w with
  | nil => exact h
  | cons e es ih =>
    apply ih
    cases e
    · exact h
    · simp only [event_handler]
      split
      · exact h
      · rfl
    · exact h
    · exact h

/-- C17: the retry count is in [0, 5] after every sequence of events served
from the start; from a retry count of 0, k consecutive disconnect events
(k at most 5) cause exactly k calls of `esp_wifi_connect`, leave the retry
count at k and do not touch the event bits; the sixth consecutive disconnect
sets the failure bit and causes no call; a got-IP event resets the retry
count to 0 and sets the connected bit. -/
theorem retry_count_bounded :
    (∀ es : List wifi_event,
        0 ≤ (run_events es wifi_init).s_retry_num ∧ (run_events es wifi_init).s_retry_num ≤ 5)
      ∧ (∀ (w : wifi_t) (k : Nat), w.s_retry_num = 0 → k ≤ 5 →
          (run_events (List.replicate k wifi_event.sta_disconnected) w).connect_calls
              = w.connect_calls + k
            ∧ (run_events (List.replicate k wifi_event.sta_disconnected) w).s_retry_num = k
            ∧ (run_events (List.replicate k wifi_event.sta_disconnected) w).fail_bit = w.fail_bit
            ∧ (run_events (List.replicate k wifi_event.sta_disconnected) w).connected_bit
              = w.connected_bit)
      ∧ (∀ w : wifi_t, w.s_retry_num = 0 →
          (run_events (List.replicate 6 wifi_event.sta_disconnected) w).fail_bit = true
            ∧ (run_events (List.replicate 6 wifi_event.sta_disconnected) w).connect_calls
              = w.connect_calls + 5
            ∧ (run_events (List.replicate 6 wifi_event.sta_disconnected) w).s_retry_num = 5)
      ∧ (∀ w : wifi_t, (event_handler wifi_event.sta_got_ip w).s_retry_num = 0
            ∧ (event_handler wifi_event.sta_got_ip w).connected_bit = true
            ∧ (event_handler wifi_event.sta_got_ip w).connect_calls = w.connect_calls) := by
  refine ⟨fun es => run_events_retry_range es wifi_init (by decide), ?_, ?_,
    fun w => ⟨rfl, rfl, rfl⟩⟩
  · intro w k h0 hk
    rw [run_disconnects k w (by rw [h0]; omega)]
    simp [h0]
  · intro w h0
    rw [show List.replicate 6 wifi_event.sta_disconnected
        = List.replicate 5 wifi_event.sta_disconnected ++ [wifi_event.sta_disconnected] from rfl,
      run_events_append, run_disconnects 5 w (by rw [h0]; norm_num)]
    simp [run_events, event_handler, h0, WIFI_MAXIMUM_RETRY]

/-- C17, at the start state: three disconnects, and six. -/
theorem retry_count_bounded_witness :
    (wifi_init.s_retry_num = 0 ∧ 3 ≤ 5)
      ∧ ((run_events (List.replicate 3 wifi_event.sta_disconnected) wifi_init).connect_calls
              = wifi_init.connect_calls + 3
            ∧ (run_events (List.replicate 3 wifi_event.sta_disconnected) wifi_init).s_retry_num
              = (3 : Nat)
            ∧ (run_events (List.replicate 3 wifi_event.sta_disconnected) wifi_init).fail_bit
              = wifi_init.fail_bit
            ∧ (run_events (List.replicate 3 wifi_event.sta_disconnected) wifi_init).connected_bit
              = wifi_init.connected_bit)
      ∧ ((run_events (List.replicate 6 wifi_event.sta_disconnected) wifi_init).fail_bit = true
            ∧ (run_events (List.replicate 6 wifi_event.sta_disconnected) wifi_init).connect_calls
              = wifi_init.connect_calls + 5
            ∧ (run_events (List.replicate 6 wifi_event.sta_disconnected) wifi_init).s_retry_num
              = 5) :=
  ⟨by decide, retry_count_bounded.2.1 wifi_init 3 rfl (by decide),
    retry_count_bounded.2.2.1 wifi_init rfl⟩

/-- C18, as stated, fails: in the state in which the handler has just
signalled failure, a got-IP event resets the retry count to 0 and sets the
connected bit, a start event causes a call of `esp_wifi_connect`, and after
a got-IP event a disconnect event causes a call again. -/
theorem failed_not_terminal :
    (wifi_failed.fail_bit = true ∧ wifi_failed.s_retry_num = 5
        ∧ wifi_failed.connected_bit = false)
      ∧ ((event_handler wifi_event.sta_got_ip wifi_failed).s_retry_num = 0
        ∧ (event_handler wifi_event.sta_got_ip wifi_failed).connected_bit = true)
      ∧ (event_handler wifi_event.sta_start wifi_failed).connect_calls
          = wifi_failed.connect_calls + 1
      ∧ (run_events [wifi_event.sta_got_ip, wifi_event.sta_disconnected] wifi_failed).connect_calls
          = wifi_failed.connect_calls + 1 := by
  decide

/-- C18, amended: once the handler has signalled failure (failure bit set,
retries exhausted), the failure bit stays set after every later sequence of
events, and every later sequence of disconnect events (and of events the
handler ignores) leaves the whole state as it is: no join attempt, the retry
count and the connected bit unchanged. -/
theorem failed_absorbs_disconnects (w : wifi_t)
    (hf : w.fail_bit = true) (hr : 5 ≤ w.s_retry_num) :
    (∀ es : List wifi_event, (run_events es w).fail_bit = true)
      ∧ (∀ es : List wifi_event,
          (∀ e ∈ es, e = wifi_event.sta_disconnected ∨ e = wifi_event.other) →
          run_events es w = w) := by
  refine ⟨fun es => run_events_fail_bit es w hf, ?_⟩
  intro es
  induction es with
  | nil => intro _; rfl
  | cons e es ih =>
    intro hes
    have hstep : event_handler e w = w := by
      rcases hes e (List.mem_cons_self e es) with h | h
      · subst h
        have hn : ¬ w.s_retry_num < WIFI_MAXIMUM_RETRY := by
          simp only [WIFI_MAXIMUM_RETRY]
          omega
        simp only [event_handler, if_neg hn]
        rcases w with ⟨a, b, c, n⟩
        simp only at hf
        rw [hf]
      · subst h
        rfl
    rw [run_events_cons, hstep]
    exact ih (fun e he => hes e (List.mem_cons_of_mem _ he))

/-- C18 amended, at the state in which the handler has just signalled
failure, with three more disconnect events. -/
theorem failed_absorbs_disconnects_witness :
    (wifi_failed.fail_bit = true ∧ 5 ≤ wifi_failed.s_retry_num)
      ∧ (run_events (List.replicate 3 wifi_event.sta_disconnected) wifi_failed).fail_bit = true
      ∧ run_events (List.replicate 3 wifi_event.sta_disconnected) wifi_failed = wifi_failed :=
  ⟨by decide,
    (failed_absorbs_disconnects wifi_failed (by decide) (by decide)).1 _,
    (failed_absorbs_disconnects wifi_failed (by decide) (by decide)).2 _
      (by intro e he; exact Or.inl (List.eq_of_mem_replicate he))⟩

end Wifi

/-! # The relay variants -/

namespace SmartLight

theorem sensor_task_tick_manual (light : Int) (motion : Bool) (d : device_t)
    (h : d.system_state.is_auto_mode = false) :
    sensor_task_tick light motion d
      = { d with system_state :=
            { d.system_state with light_value := light, motion_detected := motion } } := by
  simp [sensor_task_tick, h]

theorem sensor_task_tick_power (light : Int) (motion : Bool) (d : device_t)
    (h : d.system_state.is_auto_mode = true) :
    (sensor_task_tick light motion d).system_state.is_light_on
      = (motion && decide (light > 3000)) := by
  cases hp : d.system_state.is_light_on <;> cases motion <;>
    by_cases hl : light > 3000 <;>
    simp [sensor_task_tick, turn_on_light, turn_off_light, gpio_set_level, h, hp, hl,
      LIGHT_THRESHOLD]

theorem control_post_handler_auto (root : json_body) (d : device_t)
    (h : d.system_state.is_auto_mode = true) :
    control_post_handler (post_request.parsed root) d
      = (d, http_response.send err_msg err_msg.length) := by
  simp only [control_post_handler]
  split <;> simp [h]

theorem control_post_handler_manual (root : json_body) (d : device_t) (light : Bool)
    (h : d.system_state.is_auto_mode = false) (hl : root.light = some (some light)) :
    control_post_handler (post_request.parsed root) d
      = ({ system_state := { d.system_state with is_light_on := light }
           relay := if light then 1 else 0
           gpio_calls := d.gpio_calls ++ [if light then 1 else 0] },
          http_response.send "\x7b\"success\":true\x7d" 17) := by
  cases light <;> simp [control_post_handler, hl, h, turn_on_light, turn_off_light, gpio_set_level]

end SmartLight

namespace SmartLightRGB

theorem rgb_sensor_task_tick_manual (light : Int) (motion : Bool) (d : device_t)
    (h : d.system_state.is_auto_mode = false) :
    sensor_task_tick light motion d
      = { d with system_state :=
            { d.system_state with light_value := light, motion_detected := motion } } := by
  simp [sensor_task_tick, h]

theorem rgb_sensor_task_tick_power (light : Int) (motion : Bool) (d : device_t)
    (h : d.system_state.is_auto_mode = true) :
    (sensor_task_tick light motion d).system_state.is_light_on
      = (motion && decide (light < 1500)) := by
  cases hp : d.system_state.is_light_on <;> cases motion <;>
    by_cases hl : light < 1500 <;>
    simp [sensor_task_tick, turn_on_light, turn_off_light, gpio_set_level, h, hp, hl,
      LIGHT_THRESHOLD]

theorem rgb_control_post_handler_auto (root : json_body) (d : device_t)
    (h : d.system_state.is_auto_mode = true) :
    control_post_handler (post_request.parsed root) d
      = (d, http_response.send err_msg err_msg.length) := by
  simp only [control_post_handler]
  split <;> simp [h]

theorem rgb_control_post_handler_manual (root : json_body) (d : device_t) (light : Bool)
    (h : d.system_state.is_auto_mode = false) (hl : root.light = some (some light)) :
    control_post_handler (post_request.parsed root) d
      = ({ system_state := { d.system_state with is_light_on := light }
           relay := if light then 1 else 0
           gpio_calls := d.gpio_calls ++ [if light then 1 else 0] },
          http_response.send "\x7b\"success\":true\x7d" 17) := by
  cases light <;> simp [control_post_handler, hl, h, turn_on_light, turn_off_light, gpio_set_level]

end SmartLightRGB

/-! # Properties shared by the variants -/

namespace Variants

/-- C12: in Auto mode, after one arbiter tick that reads light value L and
motion M, power is M AND L > 3000 in `smartlightws2812.c` and `smartlight.c`
and M AND L < 1500 in `smartlightrgb.c`, whatever power was before; a reading
equal to the threshold gives power off; and in each variant, from power off,
a dark reading with motion gives power on (with effect None in the WS2812
variant) and a following sample without motion gives power off. -/
theorem auto_tick_power :
    ((∀ (d : WS2812.device_t) (L : Int) (M : Bool), d.system_state.is_auto_mode = true →
          (WS2812.sensor_monitor_tick L M d).system_state.is_light_on
            = (M && decide (L > 3000)))
        ∧ (∀ (d : SmartLight.device_t) (L : Int) (M : Bool),
          d.system_state.is_auto_mode = true →
          (SmartLight.sensor_task_tick L M d).system_state.is_light_on
            = (M && decide (L > 3000)))
        ∧ (∀ (d : SmartLightRGB.device_t) (L : Int) (M : Bool),
          d.system_state.is_auto_mode = true →
          (SmartLightRGB.sensor_task_tick L M d).system_state.is_light_on
            = (M && decide (L < 1500))))
      ∧ ((∀ (d : WS2812.device_t) (M : Bool), d.system_state.is_auto_mode = true →
          (WS2812.sensor_monitor_tick 3000 M d).system_state.is_light_on = false)
        ∧ (∀ (d : SmartLight.device_t) (M : Bool), d.system_state.is_auto_mode = true →
          (SmartLight.sensor_task_tick 3000 M d).system_state.is_light_on = false)
        ∧ (∀ (d : SmartLightRGB.device_t) (M : Bool), d.system_state.is_auto_mode = true →
          (SmartLightRGB.sensor_task_tick 1500 M d).system_state.is_light_on = false))
      ∧ ((∀ (d : WS2812.device_t) (L L2 : Int), d.system_state.is_auto_mode = true →
          d.system_state.is_light_on = false → L > 3000 →
          (WS2812.sensor_monitor_tick L true d).system_state.is_light_on = true
            ∧ (WS2812.sensor_monitor_tick L true d).system_state.effect = WS2812.EFFECT_NONE
            ∧ (WS2812.sensor_monitor_tick L2 false
                (WS2812.sensor_monitor_tick L true d)).system_state.is_light_on = false)
        ∧ (∀ (d : SmartLight.device_t) (L L2 : Int), d.system_state.is_auto_mode = true →
          d.system_state.is_light_on = false → L > 3000 →
          (SmartLight.sensor_task_tick L true d).system_state.is_light_on = true
            ∧ (SmartLight.sensor_task_tick L2 false
                (SmartLight.sensor_task_tick L true d)).system_state.is_light_on = false)
        ∧ (∀ (d : SmartLightRGB.device_t) (L L2 : Int), d.system_state.is_auto_mode = true →
          d.system_state.is_light_on = false → L < 1500 →
          (SmartLightRGB.sensor_task_tick L true d).system_state.is_light_on = true
            ∧ (SmartLightRGB.sensor_task_tick L2 false
                (SmartLightRGB.sensor_task_tick L true d)).system_state.is_light_on = false)) := by
  have auto_ws : ∀ (d : WS2812.device_t) (L : Int) (M : Bool),
      d.system_state.is_auto_mode = true →
      (WS2812.sensor_monitor_tick L M d).system_state.is_auto_mode = true := by
    intro d L M h
    cases hp : d.system_state.is_light_on <;> cases M <;>
      by_cases hl : L > 3000 <;>
      simp [WS2812.sensor_monitor_tick, h, hp, hl, WS2812.LIGHT_THRESHOLD]
  have auto_relay : ∀ (d : SmartLight.device_t) (L : Int) (M : Bool),
      d.system_state.is_auto_mode = true →
      (SmartLight.sensor_task_tick L M d).system_state.is_auto_mode = true := by
    intro d L M h
    cases hp : d.system_state.is_light_on <;> cases M <;>
      by_cases hl : L > 3000 <;>
      simp [SmartLight.sensor_task_tick, SmartLight.turn_on_light, SmartLight.turn_off_light,
        SmartLight.gpio_set_level, h, hp, hl, SmartLight.LIGHT_THRESHOLD]
  have auto_rgb : ∀ (d : SmartLightRGB.device_t) (L : Int) (M : Bool),
      d.system_state.is_auto_mode = true →
      (SmartLightRGB.sensor_task_tick L M d).system_state.is_auto_mode = true := by
    intro d L M h
    cases hp : d.system_state.is_light_on <;> cases M <;>
      by_cases hl : L < 1500 <;>
      simp [SmartLightRGB.sensor_task_tick, SmartLightRGB.turn_on_light,
        SmartLightRGB.turn_off_light, SmartLightRGB.gpio_set_level, h, hp, hl,
        SmartLightRGB.LIGHT_THRESHOLD]
  refine ⟨⟨fun d L M h => WS2812.sensor_monitor_tick_power L M d h,
      fun d L M h => SmartLight.sensor_task_tick_power L M d h,
      fun d L M h => SmartLightRGB.rgb_sensor_task_tick_power L M d h⟩,
    ⟨?_, ?_, ?_⟩, ⟨?_, ?_, ?_⟩⟩
  · intro d M h
    rw [WS2812.sensor_monitor_tick_power 3000 M d h]
    simp
  · intro d M h
    rw [SmartLight.sensor_task_tick_power 3000 M d h]
    simp
  · intro d M h
    rw [SmartLightRGB.rgb_sensor_task_tick_power 1500 M d h]
    simp
  · intro d L L2 h hp hl
    refine ⟨?_, ?_, ?_⟩
    · rw [WS2812.sensor_monitor_tick_power L true d h]
      simp [hl]
    · rw [WS2812.sensor_monitor_tick_effect L true d h]
      simp [hl, hp]
    · rw [WS2812.sensor_monitor_tick_power L2 false _ (auto_ws d L true h)]
      simp
  · intro d L L2 h _ hl
    refine ⟨?_, ?_⟩
    · rw [SmartLight.sensor_task_tick_power L true d h]
      simp [hl]
    · rw [SmartLight.sensor_task_tick_power L2 false _ (auto_relay d L true h)]
      simp
  · intro d L L2 h _ hl
    refine ⟨?_, ?_⟩
    · rw [SmartLightRGB.rgb_sensor_task_tick_power L true d h]
      simp [hl]
    · rw [SmartLightRGB.rgb_sensor_task_tick_power L2 false _ (auto_rgb d L true h)]
      simp

/-- C12, from the initial devices (Auto mode, power off): a dark reading
with motion, then a sample without motion. -/
theorem auto_tick_power_witness :
    ((WS2812.device_init.system_state.is_auto_mode = true
        ∧ WS2812.device_init.system_state.is_light_on = false ∧ (3500 : Int) > 3000)
      ∧ (SmartLight.device_init.system_state.is_auto_mode = true
        ∧ SmartLight.device_init.system_state.is_light_on = false)
      ∧ (SmartLightRGB.device_init.system_state.is_auto_mode = true
        ∧ SmartLightRGB.device_init.system_state.is_light_on = false ∧ (800 : Int) < 1500))
    ∧ ((WS2812.sensor_monitor_tick 3500 true WS2812.device_init).system_state.is_light_on = true
        ∧ (WS2812.sensor_monitor_tick 3500 true WS2812.device_init).system_state.effect
            = WS2812.EFFECT_NONE
        ∧ (WS2812.sensor_monitor_tick 3500 false
            (WS2812.sensor_monitor_tick 3500 true WS2812.device_init)).system_state.is_light_on
            = false)
    ∧ ((SmartLight.sensor_task_tick 3500 true SmartLight.device_init).system_state.is_light_on
            = true
        ∧ (SmartLight.sensor_task_tick 3500 false
            (SmartLight.sensor_task_tick 3500 true SmartLight.device_init)).system_state.is_light_on
            = false)
    ∧ ((SmartLightRGB.sensor_task_tick 800 true
            SmartLightRGB.device_init).system_state.is_light_on = true
        ∧ (SmartLightRGB.sensor_task_tick 800 false
            (SmartLightRGB.sensor_task_tick 800 true
              SmartLightRGB.device_init)).system_state.is_light_on = false) :=
  ⟨by decide,
    auto_tick_power.2.2.1 WS2812.device_init 3500 3500 (by decide) (by decide) (by decide),
    auto_tick_power.2.2.2.1 SmartLight.device_init 3500 3500 (by decide) (by decide)
      (by decide),
    auto_tick_power.2.2.2.2 SmartLightRGB.device_init 800 800 (by decide) (by decide)
      (by decide)⟩

/-- C13: in Manual mode an arbiter tick stores the light reading and the
motion value and changes nothing else, in each variant: power, effect, mode,
color and brightness are as before, and so are the strip with its driver
calls (WS2812) and the relay with the levels written to it (relay variants). -/
theorem manual_tick_changes_sensors_only :
    (∀ (d : WS2812.device_t) (L : Int) (M : Bool), d.system_state.is_auto_mode = false →
        WS2812.sensor_monitor_tick L M d
          = { d with system_state :=
                { d.system_state with light_value := L, motion_detected := M } })
      ∧ (∀ (d : SmartLight.device_t) (L : Int) (M : Bool),
        d.system_state.is_auto_mode = false →
        SmartLight.sensor_task_tick L M d
          = { d with system_state :=
                { d.system_state with light_value := L, motion_detected := M } })
      ∧ (∀ (d : SmartLightRGB.device_t) (L : Int) (M : Bool),
        d.system_state.is_auto_mode = false →
        SmartLightRGB.sensor_task_tick L M d
          = { d with system_state :=
                { d.system_state with light_value := L, motion_detected := M } }) :=
  ⟨fun d L M h => WS2812.sensor_monitor_tick_manual L M d h,
    fun d L M h => SmartLight.sensor_task_tick_manual L M d h,
    fun d L M h => SmartLightRGB.rgb_sensor_task_tick_manual L M d h⟩

/-- C13, on devices in Manual mode, with a dark reading and motion. -/
theorem manual_tick_changes_sensors_only_witness :
    ((WS2812.run_command WS2812.command.toggle_mode
          WS2812.device_init).system_state.is_auto_mode = false
      ∧ SmartLight.device_manual.system_state.is_auto_mode = false
      ∧ SmartLightRGB.device_manual.system_state.is_auto_mode = false)
    ∧ WS2812.sensor_monitor_tick 3500 true
          (WS2812.run_command WS2812.command.toggle_mode WS2812.device_init)
        = { WS2812.run_command WS2812.command.toggle_mode WS2812.device_init with
            system_state :=
              { (WS2812.run_command WS2812.command.toggle_mode
                    WS2812.device_init).system_state with
                light_value := 3500, motion_detected := true } }
    ∧ SmartLight.sensor_task_tick 3500 true SmartLight.device_manual
        = { SmartLight.device_manual with
            system_state :=
              { SmartLight.device_manual.system_state with
                light_value := 3500, motion_detected := true } }
    ∧ SmartLightRGB.sensor_task_tick 800 true SmartLightRGB.device_manual
        = { SmartLightRGB.device_manual with
            system_state :=
              { SmartLightRGB.device_manual.system_state with
                light_value := 800, motion_detected := true } } :=
  ⟨by decide,
    manual_tick_changes_sensors_only.1 _ 3500 true (by decide),
    manual_tick_changes_sensors_only.2.1 SmartLight.device_manual 3500 true (by decide),
    manual_tick_changes_sensors_only.2.2 SmartLightRGB.device_manual 800 true (by decide)⟩

/-- C19: in `smartlight.c` and in `smartlightrgb.c`, a decodable POST
/control request served in Auto mode leaves the device as it is (state,
relay level, levels written) and is answered with the rejection body,
whatever the body of the request; in Manual mode a body whose light item is
a boolean sets power to that boolean (and the relay to the matching level)
and is answered with the success body. -/
theorem relay_control_policy :
    ((∀ (d : SmartLight.device_t) (root : SmartLight.json_body),
          d.system_state.is_auto_mode = true →
          SmartLight.control_post_handler (SmartLight.post_request.parsed root) d
            = (d, SmartLight.http_response.send SmartLight.err_msg SmartLight.err_msg.length))
        ∧ (∀ (d : SmartLight.device_t) (root : SmartLight.json_body) (light : Bool),
          d.system_state.is_auto_mode = false → root.light = some (some light) →
          (SmartLight.control_post_handler (SmartLight.post_request.parsed root)
              d).1.system_state = { d.system_state with is_light_on := light }
            ∧ (SmartLight.control_post_handler (SmartLight.post_request.parsed root)
              d).1.relay = (if light then 1 else 0)
            ∧ (SmartLight.control_post_handler (SmartLight.post_request.parsed root) d).2
              = SmartLight.http_response.send "\x7b\"success\":true\x7d" 17))
      ∧ ((∀ (d : SmartLightRGB.device_t) (root : SmartLightRGB.json_body),
          d.system_state.is_auto_mode = true →
          SmartLightRGB.control_post_handler (SmartLightRGB.post_request.parsed root) d
            = (d, SmartLightRGB.http_response.send SmartLightRGB.err_msg
                SmartLightRGB.err_msg.length))
        ∧ (∀ (d : SmartLightRGB.device_t) (root : SmartLightRGB.json_body) (light : Bool),
          d.system_state.is_auto_mode = false → root.light = some (some light) →
          (SmartLightRGB.control_post_handler (SmartLightRGB.post_request.parsed root)
              d).1.system_state = { d.system_state with is_light_on := light }
            ∧ (SmartLightRGB.control_post_handler (SmartLightRGB.post_request.parsed root)
              d).1.relay = (if light then 1 else 0)
            ∧ (SmartLightRGB.control_post_handler (SmartLightRGB.post_request.parsed root) d).2
              = SmartLightRGB.http_response.send "\x7b\"success\":true\x7d" 17)) := by
  refine ⟨⟨fun d root h => SmartLight.control_post_handler_auto root d h, ?_⟩,
    ⟨fun d root h => SmartLightRGB.rgb_control_post_handler_auto root d h, ?_⟩⟩
  · intro d root light h hl
    rw [SmartLight.control_post_handler_manual root d light h hl]
    exact ⟨rfl, rfl, rfl⟩
  · intro d root light h hl
    rw [SmartLightRGB.rgb_control_post_handler_manual root d light h hl]
    exact ⟨rfl, rfl, rfl⟩

/-- C19, in `smartlight.c`: the request with light true, served in the
initial device (Auto mode) and in the device switched to Manual mode. -/
theorem relay_control_policy_witness :
    (SmartLight.device_init.system_state.is_auto_mode = true
      ∧ SmartLight.device_manual.system_state.is_auto_mode = false)
    ∧ SmartLight.control_post_handler
          (SmartLight.post_request.parsed { light := some (some true), auto_mode := none })
          SmartLight.device_init
        = (SmartLight.device_init,
            SmartLight.http_response.send SmartLight.err_msg SmartLight.err_msg.length)
    ∧ ((SmartLight.control_post_handler
          (SmartLight.post_request.parsed { light := some (some true), auto_mode := none })
          SmartLight.device_manual).1.system_state
          = { SmartLight.device_manual.system_state with is_light_on := true }
      ∧ (SmartLight.control_post_handler
          (SmartLight.post_request.parsed { light := some (some true), auto_mode := none })
          SmartLight.device_manual).1.relay = (if true then 1 else 0)
      ∧ (SmartLight.control_post_handler
          (SmartLight.post_request.parsed { light := some (some true), auto_mode := none })
          SmartLight.device_manual).2
          = SmartLight.http_response.send "\x7b\"success\":true\x7d" 17) :=
  ⟨by decide,
    relay_control_policy.1.1 SmartLight.device_init _ (by decide),
    relay_control_policy.1.2 SmartLight.device_manual _ true (by decide) rfl⟩

/-! ## Edge-triggered arbitration -/

theorem ws_tick_idempotent (d : WS2812.device_t) (L : Int) (M : Bool) :
    WS2812.sensor_monitor_tick L M (WS2812.sensor_monitor_tick L M d)
      = WS2812.sensor_monitor_tick L M d := by
  cases ha : d.system_state.is_auto_mode <;> cases hp : d.system_state.is_light_on <;>
    cases M <;> by_cases hl : L > 3000 <;>
    simp [WS2812.sensor_monitor_tick, WS2812.turn_on_light, WS2812.turn_off_light,
      WS2812.set_all_leds, WS2812.clear_all_leds, ha, hp, hl, WS2812.LIGHT_THRESHOLD]

theorem ws_stmts_steady (d : WS2812.device_t) (L : Int) (M : Bool)
    (h : (M && decide (L > 3000)) = d.system_state.is_light_on) :
    WS2812.sensor_monitor_stmts L M d
      = [WS2812.stmt.store_light_value L, WS2812.stmt.store_motion_detected M] := by
  cases ha : d.system_state.is_auto_mode <;> cases hp : d.system_state.is_light_on <;>
    cases M <;> by_cases hl : L > 3000 <;>
    simp [WS2812.sensor_monitor_stmts, ha, hp, hl, WS2812.LIGHT_THRESHOLD] <;>
    simp [hp, hl] at h

theorem ws_tick_steady (d : WS2812.device_t) (L : Int) (M : Bool)
    (h : (M && decide (L > 3000)) = d.system_state.is_light_on) :
    WS2812.sensor_monitor_tick L M d
      = { d with system_state :=
            { d.system_state with light_value := L, motion_detected := M } } := by
  rw [← WS2812.exec_sensor_monitor_stmts, ws_stmts_steady d L M h]
  rfl

theorem relay_tick_idempotent (d : SmartLight.device_t) (L : Int) (M : Bool) :
    SmartLight.sensor_task_tick L M (SmartLight.sensor_task_tick L M d)
      = SmartLight.sensor_task_tick L M d := by
  cases ha : d.system_state.is_auto_mode <;> cases hp : d.system_state.is_light_on <;>
    cases M <;> by_cases hl : L > 3000 <;>
    simp [SmartLight.sensor_task_tick, SmartLight.turn_on_light, SmartLight.turn_off_light,
      SmartLight.gpio_set_level, ha, hp, hl, SmartLight.LIGHT_THRESHOLD]

theorem relay_tick_steady (d : SmartLight.device_t) (L : Int) (M : Bool)
    (h : (M && decide (L > 3000)) = d.system_state.is_light_on) :
    SmartLight.sensor_task_tick L M d
      = { d with system_state :=
            { d.system_state with light_value := L, motion_detected := M } } := by
  cases ha : d.system_state.is_auto_mode <;> cases hp : d.system_state.is_light_on <;>
    cases M <;> by_cases hl : L > 3000 <;>
    simp [SmartLight.sensor_task_tick, ha, hp, hl, SmartLight.LIGHT_THRESHOLD] <;>
    simp [hp, hl] at h

theorem ws_stmts_second (d : WS2812.device_t) (L : Int) (M : Bool) :
    WS2812.sensor_monitor_stmts L M (WS2812.sensor_monitor_tick L M d)
      = [WS2812.stmt.store_light_value L, WS2812.stmt.store_motion_detected M] := by
  cases ha : d.system_state.is_auto_mode <;> cases hp : d.system_state.is_light_on <;>
    cases M <;> by_cases hl : L > 3000 <;>
    simp [WS2812.sensor_monitor_stmts, WS2812.sensor_monitor_tick, WS2812.turn_on_light,
      WS2812.turn_off_light, WS2812.set_all_leds, WS2812.clear_all_leds, ha, hp, hl,
      WS2812.LIGHT_THRESHOLD]

/-- C21: in `smartlightws2812.c` and in `smartlight.c`, an arbiter tick in
Auto mode whose desired power equals the current power only stores the two
sensor values: it calls no output function and writes neither power nor
effect; and for every state, reading and motion, a second tick with the same
reading and motion gives the state of the first, executes only the two
sensor stores and adds no driver call and no relay write. -/
theorem arbitration_edge_triggered :
    ((∀ (d : WS2812.device_t) (L : Int) (M : Bool), d.system_state.is_auto_mode = true →
          (M && decide (L > 3000)) = d.system_state.is_light_on →
          WS2812.sensor_monitor_stmts L M d
              = [WS2812.stmt.store_light_value L, WS2812.stmt.store_motion_detected M]
            ∧ WS2812.sensor_monitor_tick L M d
              = { d with system_state :=
                    { d.system_state with light_value := L, motion_detected := M } })
        ∧ (∀ (d : WS2812.device_t) (L : Int) (M : Bool),
          WS2812.sensor_monitor_tick L M (WS2812.sensor_monitor_tick L M d)
              = WS2812.sensor_monitor_tick L M d
            ∧ WS2812.sensor_monitor_stmts L M (WS2812.sensor_monitor_tick L M d)
              = [WS2812.stmt.store_light_value L, WS2812.stmt.store_motion_detected M]
            ∧ (WS2812.sensor_monitor_tick L M
                (WS2812.sensor_monitor_tick L M d)).led_strip.calls
              = (WS2812.sensor_monitor_tick L M d).led_strip.calls))
      ∧ ((∀ (d : SmartLight.device_t) (L : Int) (M : Bool),
          d.system_state.is_auto_mode = true →
          (M && decide (L > 3000)) = d.system_state.is_light_on →
          SmartLight.sensor_task_tick L M d
            = { d with system_state :=
                  { d.system_state with light_value := L, motion_detected := M } })
        ∧ (∀ (d : SmartLight.device_t) (L : Int) (M : Bool),
          SmartLight.sensor_task_tick L M (SmartLight.sensor_task_tick L M d)
              = SmartLight.sensor_task_tick L M d
            ∧ (SmartLight.sensor_task_tick L M
                (SmartLight.sensor_task_tick L M d)).gpio_calls
              = (SmartLight.sensor_task_tick L M d).gpio_calls)) := by
  refine ⟨⟨fun d L M _ h => ⟨ws_stmts_steady d L M h, ws_tick_steady d L M h⟩,
      fun d L M => ⟨ws_tick_idempotent d L M, ws_stmts_second d L M, ?_⟩⟩,
    ⟨fun d L M _ h => relay_tick_steady d L M h,
      fun d L M => ⟨relay_tick_idempotent d L M, ?_⟩⟩⟩
  · rw [ws_tick_idempotent]
  · rw [relay_tick_idempotent]

/-- C21, from the initial devices: a dark reading with motion turns the
light on, and the same sample once more changes nothing. -/
theorem arbitration_edge_triggered_witness :
    ((WS2812.sensor_monitor_tick 3500 true WS2812.device_init).system_state.is_auto_mode = true
      ∧ (true && decide ((3500 : Int) > 3000))
          = (WS2812.sensor_monitor_tick 3500 true WS2812.device_init).system_state.is_light_on
      ∧ (SmartLight.sensor_task_tick 3500 true SmartLight.device_init).system_state.is_auto_mode
          = true
      ∧ (true && decide ((3500 : Int) > 3000))
          = (SmartLight.sensor_task_tick 3500 true
              SmartLight.device_init).system_state.is_light_on)
    ∧ (WS2812.sensor_monitor_stmts 3500 true
            (WS2812.sensor_monitor_tick 3500 true WS2812.device_init)
          = [WS2812.stmt.store_light_value 3500, WS2812.stmt.store_motion_detected true]
        ∧ WS2812.sensor_monitor_tick 3500 true
            (WS2812.sensor_monitor_tick 3500 true WS2812.device_init)
          = { WS2812.sensor_monitor_tick 3500 true WS2812.device_init with
              system_state :=
                { (WS2812.sensor_monitor_tick 3500 true WS2812.device_init).system_state with
                  light_value := 3500, motion_detected := true } })
    ∧ SmartLight.sensor_task_tick 3500 true
          (SmartLight.sensor_task_tick 3500 true SmartLight.device_init)
        = { SmartLight.sensor_task_tick 3500 true SmartLight.device_init with
            system_state :=
              { (SmartLight.sensor_task_tick 3500 true SmartLight.device_init).system_state with
                light_value := 3500, motion_detected := true } } :=
  ⟨by decide,
    arbitration_edge_triggered.1.1 _ 3500 true (by decide) (by decide),
    arbitration_edge_triggered.2.1 _ 3500 true (by decide) (by decide)⟩

/-! ## The terminating NUL of the request body -/

theorem terminate_body_inside (buf_len : Nat) (ret : Int) (h1 : 1 ≤ ret)
    (h2 : ret < (buf_len : Int)) :
    Httpd.terminate_body buf_len ret = Httpd.recv_outcome.nul_written ret.toNat := by
  unfold Httpd.terminate_body
  rw [if_neg (by omega), if_pos h2]

theorem ws_nul_inside_buffer (ret : Int) (h1 : 1 ≤ ret)
    (h2 : ret ≤ (WS2812.control_recv_size : Int)) :
    WS2812.control_recv ret = Httpd.recv_outcome.nul_written ret.toNat
      ∧ ret.toNat < WS2812.control_buf_len := by
  have h3 : (WS2812.control_recv_size : Int) = 199 := by decide
  have h4 : WS2812.control_buf_len = 200 := rfl
  exact ⟨terminate_body_inside _ ret h1 (by rw [h4]; omega), by rw [h4]; omega⟩

/-- C27: in `smartlight.c` the byte count 100, which `httpd_req_recv` may
return for the size 100 it is given, makes `control_post_handler` and
`mode_post_handler` write the NUL at index 100 of a buffer of 100 bytes, past
its end, and so do the two handlers of `smartlightrgb.c`; in
`smartlightws2812.c`, where the size given is 199 for a buffer of 200 bytes,
the largest byte count 199 puts the NUL inside the buffer. -/
theorem relay_nul_written_past_buffer :
    (((100 : Int) ≤ (SmartLight.control_recv_size : Int)
        ∧ SmartLight.control_content_len = 100
        ∧ SmartLight.control_recv 100 = Httpd.recv_outcome.nul_out_of_bounds 100)
      ∧ ((100 : Int) ≤ (SmartLight.mode_recv_size : Int)
        ∧ SmartLight.mode_content_len = 100
        ∧ SmartLight.mode_recv 100 = Httpd.recv_outcome.nul_out_of_bounds 100)
      ∧ ((100 : Int) ≤ (SmartLightRGB.control_recv_size : Int)
        ∧ SmartLightRGB.control_content_len = 100
        ∧ SmartLightRGB.control_recv 100 = Httpd.recv_outcome.nul_out_of_bounds 100)
      ∧ ((100 : Int) ≤ (SmartLightRGB.mode_recv_size : Int)
        ∧ SmartLightRGB.mode_content_len = 100
        ∧ SmartLightRGB.mode_recv 100 = Httpd.recv_outcome.nul_out_of_bounds 100))
      ∧ (WS2812.control_recv_size = 199 ∧ WS2812.control_buf_len = 200
        ∧ WS2812.control_recv 199 = Httpd.recv_outcome.nul_written 199) := by
  decide

end Variants
